import Mathlib

/-!
Shallow embedding of the Gam-Bam-Color Game Boy Color emulator
(Rust sources under src/) in Lean 4, together with theorems checking the
natural-language specification's claims against the code.

Conventions of the embedding:
* Machine integers are modelled as `Nat`.  A Rust `u8`-typed array cell or
  field boundary is modelled by reducing modulo 256 at the boundary
  (`Store.get8` / `Store.put8`, or an explicit `% 256`); `u16` boundaries
  reduce modulo 65536.  Rust arithmetic that wraps (`Wrapping`, `<<` on `u8`,
  u16 pointer arithmetic) is modelled with the explicit modulus.
* A zero-initialised Rust byte array is modelled as a sparse association
  list (`Store`): absent keys read as 0, exactly the initial array value.
* Rust panics (failed `assert!`, out-of-bounds `Vec` indexing) are modelled
  by `Option`: a function returns `none` exactly when the Rust code panics.
* `while` loops that consume at least one unit of a decreasing counter per
  iteration are modelled by structural recursion on a fuel argument that
  starts at the counter's value; since every iteration consumes at least 1
  (in fact at least 16) from the counter and requires the counter to still
  exceed the threshold, the fuel never runs out before the loop condition
  fails, so the fuel recursion computes exactly the while loop's result.
-/

namespace GBC

/-- Sparse byte store modelling a zero-initialised Rust byte array:
an association list from address to stored value, absent keys read 0. -/
def Store : Type := List (Nat × Nat)

/-- The all-zeros store (a freshly allocated `[0; N]` array). -/
def Store.empty : Store := []

/-- Raw lookup; absent addresses read 0 (arrays are zero-initialised). -/
def Store.load : Store → Nat → Nat
  | [], _ => 0
  | (b, e) :: rest, a => if b = a then e else Store.load rest a

/-- Raw update, replacing an existing entry for the address if present. -/
def Store.put : Store → Nat → Nat → Store
  | [], a, d => [(a, d)]
  | (b, e) :: rest, a, d =>
      if b = a then (a, d) :: rest else (b, e) :: Store.put rest a d

/-- Read a `u8` array cell: the stored value is a byte. -/
def Store.get8 (s : Store) (a : Nat) : Nat := s.load a % 256

/-- Write a `u8` array cell: the incoming value is truncated to a byte,
mirroring the `u8` type of the array elements. -/
def Store.put8 (s : Store) (a d : Nat) : Store := s.put a (d % 256)

/-! ### I/O register addresses

`DIV/BCPS/BCPD/OCPS/OCPD/VBK` are the constants of `src/memory.rs`.
`mem_manager.rs` imports them from a `registers` module that is absent from
the source tree; `memory.rs` (an in-tree older copy of the memory manager)
defines the same constants, which we use. -/

def DIV_ADDRESS : Nat := 0xFF04
def BCPS_ADDRESS : Nat := 0xFF68
def BCPD_ADDRESS : Nat := 0xFF69
def OCPS_ADDRESS : Nat := 0xFF6A
def OCPD_ADDRESS : Nat := 0xFF6B
def VBK_ADDRESS : Nat := 0xFF4F

/-- Modelled from the spec: the `SVBK` register address.  `registers.rs` is
missing from the source tree; the spec names `SVBK` as the CGB WRAM bank
select register, whose documented I/O address is 0xFF70. -/
def SVBK_ADDRESS : Nat := 0xFF70

/-! ### MBC1 (src/mbc/mbc1.rs)

ROM is a vector of 16 KiB banks, RAM a vector of 8 KiB banks.  We model the
vectors as a bank-indexed family of stores plus an explicit length; indexing
a bank `≥` the length is a Rust panic, hence `none`. -/

structure MBC1 where
  rom : Nat → Store
  romLen : Nat
  ram : Nat → Store
  ramLen : Nat
  ramEnabled : Bool
  romBankIndex : Nat
  ramBankIndex : Nat
  usingRamBanking : Bool

/-- `MBC1::new(rom_banks, ram_banks)`: zeroed banks, everything off. -/
def MBC1.new (romBanks ramBanks : Nat) : MBC1 :=
  { rom := fun _ => Store.empty
    romLen := romBanks
    ram := fun _ => Store.empty
    ramLen := ramBanks
    ramEnabled := false
    romBankIndex := 0
    ramBankIndex := 0
    usingRamBanking := false }

/-- `<Memory for MBC1>::read`.  Note `(extra_bits << 5) as usize` shifts a
`u8`, so the shifted value is truncated modulo 256 (always 0, as the set
bits of `extra_bits` are at positions 5 and 6). -/
def MBC1.read (mbc : MBC1) (address : Nat) : Option Nat :=
  if address ≤ 0x3FFF then
    let extraBits := 0x60 &&& mbc.romBankIndex
    let bank := 0 ||| ((extraBits <<< 5) % 256)
    if bank < mbc.romLen then some ((mbc.rom bank).get8 address) else none
  else if address ≤ 0x7FFF then
    let bankNumber := if mbc.romBankIndex = 0 then 1 else mbc.romBankIndex
    if bankNumber < mbc.romLen then
      some ((mbc.rom bankNumber).get8 (address - 0x4000))
    else none
  else if (0xA000 ≤ address ∧ address ≤ 0xBFFF) ∧ mbc.ramEnabled then
    if mbc.ramBankIndex < mbc.ramLen then
      some ((mbc.ram mbc.ramBankIndex).get8 (address - 0xA000))
    else none
  else some 0xFF

/-- `<Memory for MBC1>::write`.  `data` is a `u8` parameter, so it is
truncated at entry.  `self.rom.len() as u8 - 1` is modelled with wrapping
subtraction (release semantics). -/
def MBC1.write (mbc : MBC1) (address data : Nat) : Option MBC1 :=
  let data := data % 256
  if address ≤ 0x1FFF then
    let d := data &&& 0x0F
    some { mbc with ramEnabled := d = 0x0A }
  else if address ≤ 0x3FFF then
    let mask :=
      if data > mbc.romLen then (mbc.romLen % 256 + 255) % 256 else 0x1F
    let d := mask &&& data
    let extraBits :=
      if mbc.usingRamBanking ∧ mbc.romLen > 32 then mbc.ramBankIndex else 0
    some { mbc with romBankIndex := (d ||| ((extraBits <<< 5) % 256)) % 256 }
  else if address ≤ 0x5FFF then
    if mbc.usingRamBanking ∧ (mbc.ramLen > 1 ∨ mbc.romLen ≥ 64) then
      some { mbc with ramBankIndex := data }
    else some mbc
  else if address ≤ 0x7FFF then
    if data = 1 then some { mbc with usingRamBanking := true }
    else if data = 0 then some { mbc with usingRamBanking := false }
    else some mbc
  else if (0xA000 ≤ address ∧ address ≤ 0xBFFF) ∧
      (mbc.ramEnabled ∧ mbc.usingRamBanking) then
    if mbc.ramBankIndex < mbc.ramLen then
      some { mbc with
        ram := fun b =>
          if b = mbc.ramBankIndex then
            (mbc.ram b).put8 (address - 0xA000) data
          else mbc.ram b }
    else none
  else some mbc

/-! ### Memory manager (src/mem_manager.rs) -/

structure MemManager where
  memory : Store
  vramBankOne : Store
  extraRamBanks : Nat → Store
  objectPalettes : Store
  backgroundPalettes : Store
  mbc : Option MBC1

/-- `MemManager::new()`: everything zeroed, no MBC mounted. -/
def MemManager.new : MemManager :=
  { memory := Store.empty
    vramBankOne := Store.empty
    extraRamBanks := fun _ => Store.empty
    objectPalettes := Store.empty
    backgroundPalettes := Store.empty
    mbc := none }

/-- `MemManager::force_write`: raw store into the flat array, bypassing all
register side effects. -/
def MemManager.forceWrite (m : MemManager) (address data : Nat) : MemManager :=
  { m with memory := m.memory.put8 address data }

/-- `<Memory for MemManager>::read` (mem_manager.rs).  Match arms in source
order; only the MBC arms can panic. -/
def MemManager.read (m : MemManager) (address : Nat) : Option Nat :=
  let ramBank := m.memory.get8 SVBK_ADDRESS &&& 0b00000111
  let vramBank := m.memory.get8 VBK_ADDRESS &&& 0b00000001
  if address ≤ 0x7FFF ∧ m.mbc.isSome then
    m.mbc.elim none (fun mbc => mbc.read address)
  else if (0xA000 ≤ address ∧ address ≤ 0xBFFF) ∧ m.mbc.isSome then
    m.mbc.elim none (fun mbc => mbc.read address)
  else if (0xD000 ≤ address ∧ address ≤ 0xDFFF) ∧ ramBank > 1 then
    some ((m.extraRamBanks (ramBank - 2)).get8 (address - 0xD000))
  else if (0x8000 ≤ address ∧ address ≤ 0x9FFF) ∧ vramBank = 1 then
    some (m.vramBankOne.get8 (address - 0x8000))
  else if address = OCPD_ADDRESS then
    some (m.objectPalettes.get8 (m.memory.get8 OCPS_ADDRESS &&& 0b00111111))
  else if address = BCPD_ADDRESS then
    some (m.backgroundPalettes.get8 (m.memory.get8 BCPS_ADDRESS &&& 0b00111111))
  else
    some (m.memory.get8 address)

/-- `<Memory for MemManager>::write` (mem_manager.rs).  Match arms in source
order: JOYP mask, MBC ROM window, MBC external RAM, banked WRAM, banked
VRAM, OCPD, BCPD, DIV reset, plain store.  `data` is a `u8` parameter.  In
the palette-data arms, the index register is rewritten as
`(index & 0x80) | palette_index.wrapping_add(1)`: the 6-bit index is
incremented without a 6-bit wrap (0x3F + 1 = 0x40 spills into bit 6) and
bit 6 of the old register value is dropped. -/
def MemManager.write (m : MemManager) (address data : Nat) : Option MemManager :=
  let data := data % 256
  let ramBank := m.memory.get8 SVBK_ADDRESS &&& 0b00000111
  let vramBank := m.memory.get8 VBK_ADDRESS &&& 0b00000001
  if address = 0xFF00 then
    let currValue := m.memory.get8 address &&& 0b00001111
    some { m with memory := m.memory.put8 address ((data &&& 0b11110000) ||| currValue) }
  else if address ≤ 0x7FFF ∧ m.mbc.isSome then
    m.mbc.elim none (fun mbc =>
      (mbc.write address data).map (fun mbc2 => { m with mbc := some mbc2 }))
  else if (0xA000 ≤ address ∧ address ≤ 0xBFFF) ∧ m.mbc.isSome then
    m.mbc.elim none (fun mbc =>
      (mbc.write address data).map (fun mbc2 => { m with mbc := some mbc2 }))
  else if (0xD000 ≤ address ∧ address ≤ 0xDFFF) ∧ ramBank > 1 then
    some { m with extraRamBanks := fun b =>
      if b = ramBank - 2 then (m.extraRamBanks b).put8 (address - 0xD000) data
      else m.extraRamBanks b }
  else if (0x8000 ≤ address ∧ address ≤ 0x9FFF) ∧ vramBank = 1 then
    some { m with vramBankOne := m.vramBankOne.put8 (address - 0x8000) data }
  else if address = OCPD_ADDRESS then
    let ocps := m.memory.get8 OCPS_ADDRESS
    let paletteIndex := ocps &&& 0b00111111
    let m2 := { m with objectPalettes := m.objectPalettes.put8 paletteIndex data }
    if ocps &&& 0b10000000 ≠ 0 then
      some { m2 with memory :=
        m2.memory.put8 OCPS_ADDRESS ((ocps &&& 0b10000000) ||| (paletteIndex + 1)) }
    else some m2
  else if address = BCPD_ADDRESS then
    let bcps := m.memory.get8 BCPS_ADDRESS
    let paletteIndex := bcps &&& 0b00111111
    let m2 := { m with backgroundPalettes := m.backgroundPalettes.put8 paletteIndex data }
    if bcps &&& 0b10000000 ≠ 0 then
      some { m2 with memory :=
        m2.memory.put8 BCPS_ADDRESS ((bcps &&& 0b10000000) ||| (paletteIndex + 1)) }
    else some m2
  else if address = DIV_ADDRESS then
    some { m with memory := m.memory.put8 address 0 }
  else
    some { m with memory := m.memory.put8 address data }

/-- `read_u16` (little-endian), as implemented for `MemManager` in
memory.rs: low byte at the address, high byte at the next address. -/
def MemManager.readU16 (m : MemManager) (address : Nat) : Option Nat := do
  let low ← m.read address
  let high ← m.read ((address + 1) % 65536)
  pure ((high <<< 8) ||| low)

/-- `write_u16` (little-endian): low byte first, then high byte. -/
def MemManager.writeU16 (m : MemManager) (address data : Nat) : Option MemManager := do
  let low := data % 256
  let high := (data / 256) % 256
  let m1 ← m.write address low
  m1.write ((address + 1) % 65536) high

/-! ### OAM DMA controller (src/dma_controller.rs)

Only the engine state lives here; the memory is passed explicitly.  The
`assert!(source_value <= 0xDF)` is a panic on out-of-range sources, hence
`none`. -/

def OAM_DMA_SRC_ADDRESS : Nat := 0xFF46
def OAM_START : Nat := 0xFE00
def OAM_SIZE : Nat := 160
def OAM_SRC_SENTINEL : Nat := 0xFF
def OAM_DMA_TRANSFER_CYCLES : Nat := 640

structure DMAController where
  oamDmaIsActive : Bool
  oamDmaCyclesPassed : Nat

/-- The trigger phase of `DMAController::handle_oam_dma` (the code after
the early-return of the active-countdown phase): a non-sentinel source
register starts a transfer after asserting `source_value <= 0xDF`; the 160
bytes are copied at once and the source register is reset to the
sentinel. -/
def DMAController.triggerOamDma (d : DMAController) (m : MemManager) :
    Option (DMAController × MemManager) := do
  let sourceValue ← m.read OAM_DMA_SRC_ADDRESS
  if sourceValue ≠ OAM_SRC_SENTINEL then
    if sourceValue ≤ 0xDF then do
      let d := { d with oamDmaIsActive := true }
      let source := sourceValue <<< 8
      let m ← (List.range OAM_SIZE).foldlM (fun acc i => do
        let curr ← MemManager.read acc (source + i)
        MemManager.write acc (OAM_START + i) curr) m
      let m ← m.write OAM_DMA_SRC_ADDRESS OAM_SRC_SENTINEL
      some (d, m)
    else none
  else some (d, m)

/-- `DMAController::handle_oam_dma`: while a transfer is in flight, count
cycles and return early unless it just completed; otherwise run the
trigger phase. -/
def DMAController.handleOamDma (d : DMAController) (m : MemManager) (cycles : Nat) :
    Option (DMAController × MemManager) :=
  if d.oamDmaIsActive then
    let passed := d.oamDmaCyclesPassed + cycles
    if passed ≥ OAM_DMA_TRANSFER_CYCLES then
      DMAController.triggerOamDma { oamDmaIsActive := false, oamDmaCyclesPassed := 0 } m
    else some ({ d with oamDmaCyclesPassed := passed }, m)
  else DMAController.triggerOamDma d m

/-- `DMAController::update`. -/
def DMAController.update (d : DMAController) (m : MemManager) (cycles : Nat) :
    Option (DMAController × MemManager) :=
  d.handleOamDma m cycles

/-! ### Timer (src/timer.rs) -/

def BASE_SPEED : Nat := 16
def TIMA_ADDRESS : Nat := 0xFF05
def TMA_ADDRESS : Nat := 0xFF06
def TAC_ADDRESS : Nat := 0xFF07
def IF_ADDRESS : Nat := 0xFF0F

structure Timer where
  availableCyclesDiv : Nat
  availableCyclesTima : Nat
  interruptReady : Bool
  setToTmaReady : Bool

/-- `Timer::increment`: normal read, then `force_write` of the wrapping
successor. -/
def Timer.increment (m : MemManager) (address : Nat) : Option MemManager := do
  let curr ← m.read address
  pure (m.forceWrite address ((curr + 1) % 256))

/-- The `while` loop of `Timer::update_div`, by fuel recursion (fuel starts
at the cycle budget; each iteration consumes 256 ≥ 1 cycles). -/
def Timer.updateDivLoop : Nat → Nat → MemManager → Option (Nat × MemManager)
  | 0, avail, m => some (avail, m)
  | fuel + 1, avail, m =>
    if avail ≥ BASE_SPEED * 16 then do
      let m ← Timer.increment m DIV_ADDRESS
      Timer.updateDivLoop fuel (avail - BASE_SPEED * 16) m
    else some (avail, m)

/-- `Timer::get_tima_speed`: TAC low two bits select the divider. -/
def Timer.getTimaSpeed (m : MemManager) : Option Nat := do
  let tac ← m.read TAC_ADDRESS
  let speed := tac &&& 0b00000011
  pure (if speed = 0 then 64 else if speed = 1 then 1 else if speed = 2 then 4 else 16)

/-- The `while` loop of `Timer::update_tima`, by fuel recursion (each
iteration consumes `speed ≥ 16` cycles).  Before each increment, a TIMA
value of 0xFF arms both deferred actions. -/
def Timer.updateTimaLoop (speed : Nat) :
    Nat → Nat → Bool → Bool → MemManager → Option (Nat × Bool × Bool × MemManager)
  | 0, avail, ir, str, m => some (avail, ir, str, m)
  | fuel + 1, avail, ir, str, m =>
    if avail ≥ speed then do
      let tima ← m.read TIMA_ADDRESS
      let ir := if tima = 0xFF then true else ir
      let str := if tima = 0xFF then true else str
      let m ← Timer.increment m TIMA_ADDRESS
      Timer.updateTimaLoop speed fuel (avail - speed) ir str m
    else some (avail, ir, str, m)

/-- `Timer::send_interrupt_if_ready`: fires (sets IF bit 2) only when armed
and at least 4 cycles remain after the last increment. -/
def Timer.sendInterruptIfReady (ir : Bool) (remainingCycles : Nat) (m : MemManager) :
    Option (Bool × MemManager) :=
  if ir ∧ remainingCycles ≥ 4 then do
    let flags ← m.read IF_ADDRESS
    let m ← m.write IF_ADDRESS (flags ||| 0b00000100)
    pure (false, m)
  else pure (ir, m)

/-- `Timer::set_to_tma_if_ready`: reloads TIMA from TMA only when armed and
at least 4 cycles remain after the last increment. -/
def Timer.setToTmaIfReady (str : Bool) (remainingCycles : Nat) (m : MemManager) :
    Option (Bool × MemManager) :=
  if str ∧ remainingCycles ≥ 4 then do
    let tma ← m.read TMA_ADDRESS
    let m ← m.write TIMA_ADDRESS tma
    pure (false, m)
  else pure (str, m)

/-- `Timer::update_tima`. -/
def Timer.updateTima (t : Timer) (m : MemManager) : Option (Timer × MemManager) := do
  let speedSel ← Timer.getTimaSpeed m
  let timaSpeed := BASE_SPEED * speedSel
  let r ← Timer.updateTimaLoop timaSpeed t.availableCyclesTima t.availableCyclesTima
    t.interruptReady t.setToTmaReady m
  let avail := r.1
  let p ← Timer.sendInterruptIfReady r.2.1 avail r.2.2.2
  let q ← Timer.setToTmaIfReady r.2.2.1 avail p.2
  pure ({ t with
            availableCyclesTima := avail
            interruptReady := p.1
            setToTmaReady := q.1 }, q.2)

/-- `Timer::update`: DIV always advances; TIMA only when TAC bit 2 is set. -/
def Timer.update (t : Timer) (m : MemManager) (cycles : Nat) : Option (Timer × MemManager) := do
  let availDiv := t.availableCyclesDiv + cycles
  let r ← Timer.updateDivLoop availDiv availDiv m
  let t := { t with availableCyclesDiv := r.1 }
  let m := r.2
  let tac ← m.read TAC_ADDRESS
  if tac &&& 0b00000100 ≠ 0 then
    Timer.updateTima { t with availableCyclesTima := t.availableCyclesTima + cycles } m
  else pure (t, m)

/-- `Timer::new_test`: zeroed accumulators, TIMA = 0, TMA = 0, TAC = 0xF8. -/
def Timer.newTest (m : MemManager) : Option (Timer × MemManager) := do
  let m ← m.write TIMA_ADDRESS 0x00
  let m ← m.write TMA_ADDRESS 0x00
  let m ← m.write TAC_ADDRESS 0xF8
  pure ({ availableCyclesDiv := 0, availableCyclesTima := 0,
          interruptReady := false, setToTmaReady := false }, m)

/-! ### PPU OAM scan (src/ppu.rs, `Scan::select_objects`) -/

def LCDC_ADDRESS : Nat := 0xFF40
def LY_ADDRESS : Nat := 0xFF44

/-- `Scan::select_objects`: walk the 40 OAM entries at 0xFE00 + 4·i, stop at
10 selected; an entry is skipped when its first byte (`object_end`) is 0;
otherwise the scanline must lie in `object_start .. object_end` (half-open)
where `object_start` is `object_end - size` clamped to 0.  The PPU's
`current_scanline()` is a read of the LY register.  Returns the new
`objects_on_scanline` list (the old one is cleared first). -/
def selectObjects (m : MemManager) : Option (List Nat) := do
  let lcdc ← m.read LCDC_ADDRESS
  let largeObjects := lcdc &&& 0b00000100 = 4
  (List.range 40).foldlM (fun acc i => do
    let address := 0xFE00 + 4 * i
    if acc.length = 10 then pure acc
    else do
      let objectEnd ← m.read address
      if objectEnd = 0 then pure acc
      else
        let objectSize := if largeObjects then 16 else 8
        let objectStart := if objectEnd < objectSize then 0 else objectEnd - objectSize
        let ly ← m.read LY_ADDRESS
        if objectStart ≤ ly ∧ ly < objectEnd then pure (acc ++ [address])
        else pure acc) []

/-! ### CPU (src/cpu.rs)

The CPU state mirrors the `CPU` struct; the instruction table is modelled
as a decoder from opcode to an instruction descriptor (`Inst`) plus one
executor (`Inst.exec`), reproducing each closure installed by
`map_instructions`.  The mode-based OAM/VRAM locking in the CPU's `Memory`
implementation is hardcoded off in the source (`oam_locked = false`,
`vram_locked = false`), so the CPU's bus accesses coincide with the memory
manager's, and the serial-port debug print has no state effect. -/

structure CPU where
  registerA : Nat
  registerF : Nat
  registerB : Nat
  registerC : Nat
  registerD : Nat
  registerE : Nat
  registerH : Nat
  registerL : Nat
  stackPointer : Nat
  programCounter : Nat
  memory : MemManager
  halted : Bool
  ime : Bool
  eiQueue : List (Option Bool)
  changedCycles : Option Nat

/-- `CPU::new` over a given memory: documented post-boot register values,
`IF` initialised to 0xE1. -/
def CPU.new (m : MemManager) : Option CPU := do
  let m ← m.write 0xFF0F 0xE1
  pure
    { registerA := 0x11
      registerF := 0x80
      registerB := 0x00
      registerC := 0x00
      registerD := 0xFF
      registerE := 0x56
      registerH := 0x00
      registerL := 0x0D
      stackPointer := 0xFFFE
      programCounter := 0x0100
      memory := m
      halted := false
      ime := false
      eiQueue := []
      changedCycles := none }

/-- `<Memory for CPU>::read`: locking disabled, so a plain bus read. -/
def CPU.read (c : CPU) (address : Nat) : Option Nat :=
  c.memory.read address

/-- `<Memory for CPU>::write`: locking disabled, so a plain bus write. -/
def CPU.write (c : CPU) (address data : Nat) : Option CPU :=
  (c.memory.write address data).map (fun m => { c with memory := m })

/-- Modelled from the spec: the `Memory` trait's 16-bit accessors (the trait
declaration in memory.rs carries no bodies for the CPU; the spec fixes
`read16/write16` as little-endian, as implemented for the memory manager). -/
def CPU.readU16 (c : CPU) (address : Nat) : Option Nat := do
  let low ← c.read address
  let high ← c.read ((address + 1) % 65536)
  pure ((high <<< 8) ||| low)

/-- Modelled from the spec: little-endian 16-bit write, low byte first. -/
def CPU.writeU16 (c : CPU) (address data : Nat) : Option CPU := do
  let c1 ← c.write address (data % 256)
  c1.write ((address + 1) % 65536) ((data / 256) % 256)

/-- `CPU::combine_bytes`. -/
def combineBytes (high low : Nat) : Nat := (high <<< 8) ||| low

/-- `CPU::get_register`, read side: register codes 0..7 excluding 6
(which is the (HL) slot and yields `None`).  The flags register is not
addressable here. -/
def CPU.getRegisterValue (c : CPU) (code : Nat) : Option Nat :=
  if code = 0 then some c.registerB
  else if code = 1 then some c.registerC
  else if code = 2 then some c.registerD
  else if code = 3 then some c.registerE
  else if code = 4 then some c.registerH
  else if code = 5 then some c.registerL
  else if code = 7 then some c.registerA
  else none

/-- `CPU::get_register`, write side: assignment through the returned
reference; invalid codes are a no-op (the `if let Some` pattern). -/
def CPU.setRegister (c : CPU) (code v : Nat) : CPU :=
  if code = 0 then { c with registerB := v % 256 }
  else if code = 1 then { c with registerC := v % 256 }
  else if code = 2 then { c with registerD := v % 256 }
  else if code = 3 then { c with registerE := v % 256 }
  else if code = 4 then { c with registerH := v % 256 }
  else if code = 5 then { c with registerL := v % 256 }
  else if code = 7 then { c with registerA := v % 256 }
  else c

/-- `CPU::get_register_pair`, read side: (high, low) byte values; code 3 is
the AF pair. -/
def CPU.pairValue (c : CPU) (code : Nat) : Option (Nat × Nat) :=
  if code = 0 then some (c.registerB, c.registerC)
  else if code = 1 then some (c.registerD, c.registerE)
  else if code = 2 then some (c.registerH, c.registerL)
  else if code = 3 then some (c.registerA, c.registerF)
  else none

/-- `CPU::get_register_pair`, write side. -/
def CPU.setPair (c : CPU) (code hi lo : Nat) : CPU :=
  if code = 0 then { c with registerB := hi % 256, registerC := lo % 256 }
  else if code = 1 then { c with registerD := hi % 256, registerE := lo % 256 }
  else if code = 2 then { c with registerH := hi % 256, registerL := lo % 256 }
  else if code = 3 then { c with registerA := hi % 256, registerF := lo % 256 }
  else c

/-- The HL pointer value. -/
def CPU.hl (c : CPU) : Nat := combineBytes c.registerH c.registerL

/-- `CPU::negate`: two's complement of a byte, with the explicit zero case
(`!0 + 1` would overflow a `u8`). -/
def CPU.negate (num : Nat) : Nat :=
  if num = 0 then 0 else ((255 ^^^ (num % 256)) + 1) % 256

/-- `CPU::add_signed_as_unsigned`: add a byte interpreted as an i8 to a u16,
wrapping. -/
def CPU.addSignedAsUnsigned (left right : Nat) : Nat :=
  if (0x80 &&& right) >>> 7 = 1 then
    (left + 65536 - CPU.negate right) % 65536
  else (left + right) % 65536

/-- `CPU::get_carry_bit`. -/
def CPU.getCarryBit (c : CPU) : Nat := (c.registerF &&& 0b00010000) >>> 4

/-- `CPU::test_condition_code`: NZ = 0, Z = 8, NC = 16, C = 24. -/
def CPU.testConditionCode (c : CPU) (code : Nat) : Bool :=
  let isZero := 0b10000000 &&& c.registerF ≠ 0
  let isCarry := 0b00010000 &&& c.registerF ≠ 0
  if code = 0 then decide (¬isZero)
  else if code = 8 then decide isZero
  else if code = 16 then decide (¬isCarry)
  else if code = 24 then decide isCarry
  else false

/-- `CPU::update_flags_add` as a function of the flags byte: clear N, set Z
from the wrapping sum, C from full overflow, H from low-nibble overflow. -/
def updateFlagsAdd (f op1 op2 : Nat) : Nat :=
  let f := f &&& 0b10111111
  let sum := (op1 + op2) % 256
  let f := if sum = 0 then f ||| 0b10000000 else f &&& 0b01111111
  let f := if op1 + op2 > 255 then f ||| 0b00010000 else f &&& 0b11101111
  let f :=
    if (op1 &&& 0x0F) + (op2 &&& 0x0F) > 0xF then f ||| 0b00100000
    else f &&& 0b11011111
  f

/-- `CPU::update_flags_sub` (callers pass the already-negated second
operand): set N, Z from the wrapping sum, C when `negate(op2) > op1`, H
when the negated operand's low nibble exceeds op1's. -/
def updateFlagsSub (f op1 op2 : Nat) : Nat :=
  let f := f ||| 0b01000000
  let sum := (op1 + op2) % 256
  let f := if sum = 0 then f ||| 0b10000000 else f &&& 0b01111111
  let f := if CPU.negate op2 > op1 then f ||| 0b00010000 else f &&& 0b11101111
  let f :=
    if (CPU.negate op2 &&& 0x0F) > (op1 &&& 0x0F) then f ||| 0b00100000
    else f &&& 0b11011111
  f

/-- `CPU::update_hc_flags_add_u16`: C across bit 15, H across bit 11; Z and
N untouched. -/
def updateHcFlagsAddU16 (f op1 op2 : Nat) : Nat :=
  let f := if 65535 - op1 < op2 then f ||| 0b00010000 else f &&& 0b11101111
  let f :=
    if (op1 &&& 0x0FFF) + (op2 &&& 0x0FFF) > 0x0FFF then f ||| 0b00100000
    else f &&& 0b11011111
  f

/-- The `Operand` enum. -/
inductive Operand where
  | register (r : Nat)
  | indirect (a : Nat)
  | immediate

/-- The `OperandU16` enum. -/
inductive OperandU16 where
  | registerPair (r : Nat)
  | immediateU16

/-- `CPU::read_operand`.  The outer `Option` is a panic (bus panic through
an MBC); the inner one mirrors the Rust `Option<u8>` result (`None` for an
invalid register code).  The immediate kind advances PC and reads the byte
before the new PC. -/
def CPU.readOperand (c : CPU) (op : Operand) : Option (Option Nat × CPU) :=
  match op with
  | .register r => some (c.getRegisterValue r, c)
  | .indirect a => (c.read a).map (fun v => (some v, c))
  | .immediate =>
      let c2 := { c with programCounter := (c.programCounter + 1) % 65536 }
      (c2.read ((c2.programCounter + 65536 - 1) % 65536)).map (fun v => (some v, c2))

/-- `CPU::write_operand`: invalid register codes and immediates are no-ops. -/
def CPU.writeOperand (c : CPU) (op : Operand) (data : Nat) : Option CPU :=
  match op with
  | .register r => some (c.setRegister r data)
  | .indirect a => c.write a data
  | .immediate => some c

/-- `CPU::read_operand_u16`. -/
def CPU.readOperandU16 (c : CPU) (op : OperandU16) : Option (Option Nat × CPU) :=
  match op with
  | .registerPair r =>
      some ((c.pairValue r).map (fun p => combineBytes p.1 p.2), c)
  | .immediateU16 =>
      let pcValue := c.programCounter
      let c2 := { c with programCounter := (pcValue + 2) % 65536 }
      (c2.readU16 pcValue).map (fun v => (some v, c2))

/-- `CPU::write_operand_u16`. -/
def CPU.writeOperandU16 (c : CPU) (op : OperandU16) (data : Nat) : CPU :=
  match op with
  | .registerPair r => c.setPair r ((data >>> 8) % 256) (data % 256)
  | .immediateU16 => c

/-- `CPU::push`: write the pair below SP, then lower SP by 2 (only when the
pair code is valid). -/
def CPU.push (c : CPU) (op : OperandU16) : Option CPU := do
  let spValue := c.stackPointer
  let r ← c.readOperandU16 op
  match r.1 with
  | some source => do
      let c2 ← r.2.writeU16 ((spValue + 65536 - 2) % 65536) source
      pure { c2 with stackPointer := (spValue + 65536 - 2) % 65536 }
  | none => pure r.2

/-- `CPU::pop`: read the word at SP into the pair, raise SP by 2. -/
def CPU.pop (c : CPU) (op : OperandU16) : Option CPU := do
  let source ← c.readU16 c.stackPointer
  let c := c.writeOperandU16 op source
  pure { c with stackPointer := (c.stackPointer + 2) % 65536 }

/-- `CPU::adc`: two chained flag computations; H and C are the union of the
two partial carries. -/
def CPU.adc (c : CPU) (op : Operand) : Option CPU := do
  let r ← c.readOperand op
  match r.1 with
  | none => pure r.2
  | some source =>
      let c := r.2
      let carryBit := (c.registerF &&& 0b00010000) >>> 4
      let f1 := updateFlagsAdd c.registerF c.registerA source
      let overflowBits := f1 &&& 0b00110000
      let sum1 := (c.registerA + source) % 256
      let f2 := updateFlagsAdd f1 sum1 carryBit
      let sum2 := (sum1 + carryBit) % 256
      pure { c with registerA := sum2, registerF := f2 ||| overflowBits }

/-- `CPU::sbc`. -/
def CPU.sbc (c : CPU) (op : Operand) : Option CPU := do
  let r ← c.readOperand op
  match r.1 with
  | none => pure r.2
  | some source0 =>
      let c := r.2
      let source := CPU.negate source0
      let carryBit := (c.registerF &&& 0b00010000) >>> 4
      let f1 := updateFlagsSub c.registerF c.registerA source
      let overflowBits := f1 &&& 0b00110000
      let sum1 := (c.registerA + source) % 256
      let f2 := updateFlagsSub f1 sum1 (CPU.negate carryBit)
      let sum2 := (sum1 + 256 - carryBit) % 256
      pure { c with registerA := sum2, registerF := f2 ||| overflowBits }

/-- `CPU::rlc` (the helper shared by RLCA and CB-prefixed RLC): rotate left
through bit 7, write back, then re-read the operand (the source unwraps the
re-read) to compute Z; F is rebuilt from scratch. -/
def CPU.rlc (c : CPU) (op : Operand) : Option CPU := do
  let r ← c.readOperand op
  match r.1 with
  | none => pure r.2
  | some source => do
      let bitSeven := (source &&& 0b10000000) >>> 7
      let c ← r.2.writeOperand op (((source <<< 1) % 256) ||| bitSeven)
      let r2 ← c.readOperand op
      let v ← r2.1
      let c := r2.2
      let isZero := if v = 0 then 1 else 0
      pure { c with registerF := ((c.registerF &&& 0) ||| (bitSeven <<< 4)) ||| (isZero <<< 7) }

/-- `CPU::rl`. -/
def CPU.rl (c : CPU) (op : Operand) (carryBit : Nat) : Option CPU := do
  let r ← c.readOperand op
  match r.1 with
  | none => pure r.2
  | some source => do
      let bitSeven := (source &&& 0b10000000) >>> 7
      let c ← r.2.writeOperand op (((source <<< 1) % 256) ||| carryBit)
      let r2 ← c.readOperand op
      let v ← r2.1
      let c := r2.2
      let isZero := if v = 0 then 1 else 0
      pure { c with registerF := ((c.registerF &&& 0) ||| (bitSeven <<< 4)) ||| (isZero <<< 7) }

/-- `CPU::rrc`. -/
def CPU.rrc (c : CPU) (op : Operand) : Option CPU := do
  let r ← c.readOperand op
  match r.1 with
  | none => pure r.2
  | some source => do
      let bitZero := source &&& 0b00000001
      let c ← r.2.writeOperand op ((source >>> 1) ||| ((bitZero <<< 7) % 256))
      let r2 ← c.readOperand op
      let v ← r2.1
      let c := r2.2
      let isZero := if v = 0 then 1 else 0
      pure { c with registerF := ((c.registerF &&& 0) ||| (bitZero <<< 4)) ||| (isZero <<< 7) }

/-- `CPU::rr`. -/
def CPU.rr (c : CPU) (op : Operand) (carryBit : Nat) : Option CPU := do
  let r ← c.readOperand op
  match r.1 with
  | none => pure r.2
  | some source => do
      let bitZero := source &&& 0b00000001
      let c ← r.2.writeOperand op ((source >>> 1) ||| ((carryBit <<< 7) % 256))
      let r2 ← c.readOperand op
      let v ← r2.1
      let c := r2.2
      let isZero := if v = 0 then 1 else 0
      pure { c with registerF := ((c.registerF &&& 0) ||| (bitZero <<< 4)) ||| (isZero <<< 7) }

/-- `CPU::sla`. -/
def CPU.sla (c : CPU) (op : Operand) : Option CPU := do
  let r ← c.readOperand op
  match r.1 with
  | none => pure r.2
  | some source => do
      let carryBit := (source &&& 0b10000000) >>> 7
      let c ← r.2.writeOperand op ((source <<< 1) % 256)
      let r2 ← c.readOperand op
      let v ← r2.1
      let c := r2.2
      let isZero := if v = 0 then 1 else 0
      pure { c with registerF := (0 ||| (carryBit <<< 4)) ||| (isZero <<< 7) }

/-- `CPU::sra` (keeps bit 7). -/
def CPU.sra (c : CPU) (op : Operand) : Option CPU := do
  let r ← c.readOperand op
  match r.1 with
  | none => pure r.2
  | some source => do
      let bitSeven := source &&& 0b10000000
      let carryBit := source &&& 0b00000001
      let c ← r.2.writeOperand op ((source >>> 1) ||| bitSeven)
      let r2 ← c.readOperand op
      let v ← r2.1
      let c := r2.2
      let isZero := if v = 0 then 1 else 0
      pure { c with registerF := (0 ||| (carryBit <<< 4)) ||| (isZero <<< 7) }

/-- `CPU::srl`. -/
def CPU.srl (c : CPU) (op : Operand) : Option CPU := do
  let r ← c.readOperand op
  match r.1 with
  | none => pure r.2
  | some source => do
      let carryBit := source &&& 0b00000001
      let c ← r.2.writeOperand op (source >>> 1)
      let r2 ← c.readOperand op
      let v ← r2.1
      let c := r2.2
      let isZero := if v = 0 then 1 else 0
      pure { c with registerF := (0 ||| (carryBit <<< 4)) ||| (isZero <<< 7) }

/-- `CPU::swap`: exchange nibbles; Z from the original value; N, H, C
cleared. -/
def CPU.swap (c : CPU) (op : Operand) : Option CPU := do
  let r ← c.readOperand op
  match r.1 with
  | none => pure r.2
  | some source => do
      let highNibble := source &&& 0b11110000
      let lowNibble := source &&& 0b00001111
      let c ← r.2.writeOperand op ((lowNibble <<< 4) ||| (highNibble >>> 4))
      let zeroBit := if source = 0 then 1 else 0
      pure { c with registerF := 0 ||| (zeroBit <<< 7) }

/-- `CPU::bit`: Z = complement of the tested bit, H set, N cleared, C and
the low flag bits preserved (mask 0x1F). -/
def CPU.bitTest (c : CPU) (bitNum : Nat) (op : Operand) : Option CPU := do
  let r ← c.readOperand op
  match r.1 with
  | none => pure r.2
  | some source =>
      let c := r.2
      let mask := (1 <<< bitNum) % 256
      let testBit := (source &&& mask) >>> bitNum
      let zeroBit := if testBit = 1 then 0 else 1
      pure { c with registerF := ((c.registerF &&& 0b00011111) ||| 0b00100000) ||| (zeroBit <<< 7) }

/-- `CPU::res`. -/
def CPU.res (c : CPU) (bitNum : Nat) (op : Operand) : Option CPU := do
  let r ← c.readOperand op
  match r.1 with
  | none => pure r.2
  | some source =>
      r.2.writeOperand op (source &&& (255 ^^^ ((1 <<< bitNum) % 256)))

/-- `CPU::set`. -/
def CPU.setBit (c : CPU) (bitNum : Nat) (op : Operand) : Option CPU := do
  let r ← c.readOperand op
  match r.1 with
  | none => pure r.2
  | some source =>
      r.2.writeOperand op (source ||| ((1 <<< bitNum) % 256))

/-- `CPU::call`: SP -= 2 first, then the return address is written at the
new SP and PC jumps. -/
def CPU.call (c : CPU) (address : Nat) : Option CPU := do
  let sp2 := (c.stackPointer + 65536 - 2) % 65536
  let c := { c with stackPointer := sp2 }
  let c ← c.writeU16 sp2 c.programCounter
  pure { c with programCounter := address % 65536 }

/-- `CPU::jr`: fetch the displacement byte (unwrapped) and add it signed. -/
def CPU.jr (c : CPU) : Option CPU := do
  let r ← c.readOperand .immediate
  let v ← r.1
  let c := r.2
  pure { c with programCounter := CPU.addSignedAsUnsigned c.programCounter v }

/-- Descriptor for one entry of the instruction table: one constructor per
closure shape installed by `map_instructions`. -/
inductive Inst where
  | ldRR (dest src : Nat)
  | ldRN (dest : Nat)
  | ldRHL (dest : Nat)
  | ldHLR (src : Nat)
  | ldHLN
  | ldABC
  | ldADE
  | ldBCA
  | ldDEA
  | ldANN
  | ldNNA
  | ldhAC
  | ldhCA
  | ldhAN
  | ldhNA
  | ldiAHL
  | ldiHLA
  | lddAHL
  | lddHLA
  | ldRRNN (dest : Nat)
  | ldSPNN
  | ldNNSP
  | ldSPHL
  | pushRR (src : Nat)
  | popRR (dest : Nat)
  | addAR (r : Nat)
  | addAN
  | addAHL
  | adcAR (r : Nat)
  | adcAN
  | adcAHL
  | subAR (r : Nat)
  | subAN
  | subAHL
  | sbcAR (r : Nat)
  | sbcAN
  | sbcAHL
  | andAR (r : Nat)
  | andAN
  | andAHL
  | xorAR (r : Nat)
  | xorAN
  | xorAHL
  | orAR (r : Nat)
  | orAN
  | orAHL
  | cpAR (r : Nat)
  | cpAN
  | cpAHL
  | incR (r : Nat)
  | incHLInd
  | decR (r : Nat)
  | decHLInd
  | daa
  | cpl
  | addHLRR (rr : Nat)
  | addHLSP
  | incRR (rr : Nat)
  | incSP
  | decRR (rr : Nat)
  | decSP
  | addSPDD
  | ldHLSPDD
  | rlca
  | rla
  | rrca
  | rra
  | cbDispatch
  | ccf
  | scf
  | nop
  | halt
  | di
  | ei
  | jpNN
  | jpHL
  | jpF (cc : Nat)
  | jrE
  | jrF (cc : Nat)
  | callNN
  | callF (cc : Nat)
  | ret
  | retF (cc : Nat)
  | reti
  | rst (target : Nat)
  | unmapped

/-- The CB-prefixed dispatch closure (table entry 0xCB): read the following
byte, advance PC, dispatch on high/low nibbles.  Arm order matches the Rust
`match`: low nibble 6 and 0xE name the (HL) forms and override the cycle
count; other low nibbles name registers. -/
def CPU.execCb (c : CPU) : Option CPU := do
  let arg ← c.read c.programCounter
  let c := { c with programCounter := (c.programCounter + 1) % 65536 }
  let argHighNibble := (arg &&& 0b11110000) >>> 4
  let argLowNibble := arg &&& 0b00001111
  if argHighNibble = 0 then
    if argLowNibble = 6 then do
      let c ← c.rlc (.indirect c.hl)
      pure { c with changedCycles := some 4 }
    else if argLowNibble = 0xE then do
      let c ← c.rrc (.indirect c.hl)
      pure { c with changedCycles := some 4 }
    else if argLowNibble ≤ 7 then c.rlc (.register argLowNibble)
    else c.rrc (.register (argLowNibble - 8))
  else if argHighNibble = 1 then
    if argLowNibble = 6 then do
      let c ← c.rl (.indirect c.hl) c.getCarryBit
      pure { c with changedCycles := some 4 }
    else if argLowNibble = 0xE then do
      let c ← c.rr (.indirect c.hl) c.getCarryBit
      pure { c with changedCycles := some 4 }
    else if argLowNibble ≤ 7 then c.rl (.register argLowNibble) c.getCarryBit
    else c.rr (.register (argLowNibble - 8)) c.getCarryBit
  else if argHighNibble = 2 then
    if argLowNibble = 6 then do
      let c ← c.sla (.indirect c.hl)
      pure { c with changedCycles := some 4 }
    else if argLowNibble = 0xE then do
      let c ← c.sra (.indirect c.hl)
      pure { c with changedCycles := some 4 }
    else if argLowNibble ≤ 7 then c.sla (.register argLowNibble)
    else c.sra (.register (argLowNibble - 8))
  else if argHighNibble = 3 then
    if argLowNibble = 6 then do
      let c ← c.swap (.indirect c.hl)
      pure { c with changedCycles := some 4 }
    else if argLowNibble = 0xE then do
      let c ← c.srl (.indirect c.hl)
      pure { c with changedCycles := some 4 }
    else if argLowNibble ≤ 7 then c.swap (.register argLowNibble)
    else c.srl (.register (argLowNibble - 8))
  else if argHighNibble ≤ 7 then
    let bitNum := (arg &&& 0b00111000) >>> 3
    let regNum := arg &&& 0b00000111
    if argLowNibble = 6 ∨ argLowNibble = 0xE then do
      let c ← c.bitTest bitNum (.indirect c.hl)
      pure { c with changedCycles := some 3 }
    else c.bitTest bitNum (.register regNum)
  else if argHighNibble ≤ 0xB then
    let bitNum := (arg &&& 0b00111000) >>> 3
    let regNum := arg &&& 0b00000111
    if argLowNibble = 6 ∨ argLowNibble = 0xE then do
      let c ← c.res bitNum (.indirect c.hl)
      pure { c with changedCycles := some 4 }
    else c.res bitNum (.register regNum)
  else
    let bitNum := (arg &&& 0b00111000) >>> 3
    let regNum := arg &&& 0b00000111
    if argLowNibble = 6 ∨ argLowNibble = 0xE then do
      let c ← c.setBit bitNum (.indirect c.hl)
      pure { c with changedCycles := some 4 }
    else c.setBit bitNum (.register regNum)

/-- `DAA`, per the 0x27 closure. -/
def CPU.execDaa (c : CPU) : CPU :=
  let subtractionFlag := (0b01000000 &&& c.registerF) >>> 6
  let halfCarryFlag := (0b00100000 &&& c.registerF) >>> 5
  let carryFlag := (0b00010000 &&& c.registerF) >>> 4
  let f := c.registerF &&& 0b01011111
  let a := c.registerA
  let fsum : Nat × Nat :=
    if subtractionFlag = 0 then
      let p : Nat × Nat :=
        if carryFlag = 1 ∨ a > 0x99 then (f ||| 0b00010000, a + 0x60) else (f, a)
      if halfCarryFlag = 1 ∨ (a &&& 0x0F) > 0x09 then (p.1, p.2 + 0x06) else p
    else
      let s := if carryFlag = 1 then a + 256 - 0x60 else a
      let s := if halfCarryFlag = 1 then s + 512 - 0x06 else s
      (f, s)
  let newA := fsum.2 % 256
  let newF := if newA = 0 then fsum.1 ||| 0b10000000 else fsum.1
  { c with registerA := newA, registerF := newF }

/-- Execute one instruction-table entry on the CPU state, mirroring the
closure installed for it by `map_instructions`. -/
def Inst.exec (inst : Inst) (c : CPU) : Option CPU :=
  match inst with
  | .ldRR dest src =>
      match c.getRegisterValue src with
      | some v => some (c.setRegister dest v)
      | none => some c
  | .ldRN dest => do
      let v ← c.read c.programCounter
      let c := { c with programCounter := (c.programCounter + 1) % 65536 }
      pure (c.setRegister dest v)
  | .ldRHL dest => do
      let v ← c.read c.hl
      pure (c.setRegister dest v)
  | .ldHLR src =>
      match c.getRegisterValue src with
      | some v => c.write c.hl v
      | none => some c
  | .ldHLN => do
      let v ← c.read c.programCounter
      let c := { c with programCounter := (c.programCounter + 1) % 65536 }
      c.write c.hl v
  | .ldABC => do
      let v ← c.read (combineBytes c.registerB c.registerC)
      pure { c with registerA := v }
  | .ldADE => do
      let v ← c.read (combineBytes c.registerD c.registerE)
      pure { c with registerA := v }
  | .ldBCA => c.write (combineBytes c.registerB c.registerC) c.registerA
  | .ldDEA => c.write (combineBytes c.registerD c.registerE) c.registerA
  | .ldANN => do
      let low ← c.read c.programCounter
      let c := { c with programCounter := (c.programCounter + 1) % 65536 }
      let high ← c.read c.programCounter
      let c := { c with programCounter := (c.programCounter + 1) % 65536 }
      let v ← c.read (combineBytes high low)
      pure { c with registerA := v }
  | .ldNNA => do
      let low ← c.read c.programCounter
      let c := { c with programCounter := (c.programCounter + 1) % 65536 }
      let high ← c.read c.programCounter
      let c := { c with programCounter := (c.programCounter + 1) % 65536 }
      c.write (combineBytes high low) c.registerA
  | .ldhAC => do
      let v ← c.read (combineBytes 0xFF c.registerC)
      pure { c with registerA := v }
  | .ldhCA => c.write (combineBytes 0xFF c.registerC) c.registerA
  | .ldhAN => do
      let lowByte ← c.read c.programCounter
      let c := { c with programCounter := (c.programCounter + 1) % 65536 }
      let v ← c.read (combineBytes 0xFF lowByte)
      pure { c with registerA := v }
  | .ldhNA => do
      let lowByte ← c.read c.programCounter
      let c := { c with programCounter := (c.programCounter + 1) % 65536 }
      c.write (combineBytes 0xFF lowByte) c.registerA
  | .ldiAHL => do
      let v ← c.read c.hl
      let newHl := (c.hl + 1) % 65536
      pure { c with registerA := v, registerH := newHl >>> 8, registerL := newHl % 256 }
  | .ldiHLA => do
      let c ← c.write c.hl c.registerA
      let newHl := (c.hl + 1) % 65536
      pure { c with registerH := newHl >>> 8, registerL := newHl % 256 }
  | .lddAHL => do
      let v ← c.read c.hl
      let newHl := (c.hl + 65536 - 1) % 65536
      pure { c with registerA := v, registerH := newHl >>> 8, registerL := newHl % 256 }
  | .lddHLA => do
      let c ← c.write c.hl c.registerA
      let newHl := (c.hl + 65536 - 1) % 65536
      pure { c with registerH := newHl >>> 8, registerL := newHl % 256 }
  | .ldRRNN dest => do
      let source ← c.readU16 c.programCounter
      let c := { c with programCounter := (c.programCounter + 2) % 65536 }
      pure (c.setPair dest (source >>> 8) (source % 256))
  | .ldSPNN => do
      let source ← c.readU16 c.programCounter
      let c := { c with programCounter := (c.programCounter + 2) % 65536 }
      pure { c with stackPointer := source % 65536 }
  | .ldNNSP => do
      let dest ← c.readU16 c.programCounter
      let c := { c with programCounter := (c.programCounter + 2) % 65536 }
      c.writeU16 dest c.stackPointer
  | .ldSPHL =>
      some { c with stackPointer := (c.registerH <<< 8) ||| c.registerL }
  | .pushRR src => c.push (.registerPair src)
  | .popRR dest => do
      let c ← c.pop (.registerPair dest)
      if dest = 3 then pure { c with registerF := c.registerF &&& 0xF0 }
      else pure c
  | .addAR r =>
      match c.getRegisterValue r with
      | some regValue =>
          some { c with
                  registerF := updateFlagsAdd c.registerF c.registerA regValue
                  registerA := (regValue + c.registerA) % 256 }
      | none => some c
  | .addAN => do
      let arg ← c.read c.programCounter
      let c := { c with programCounter := (c.programCounter + 1) % 65536 }
      pure { c with
              registerF := updateFlagsAdd c.registerF c.registerA arg
              registerA := (c.registerA + arg) % 256 }
  | .addAHL => do
      let arg ← c.read c.hl
      pure { c with
              registerF := updateFlagsAdd c.registerF c.registerA arg
              registerA := (c.registerA + arg) % 256 }
  | .adcAR r => c.adc (.register r)
  | .adcAN => c.adc .immediate
  | .adcAHL => c.adc (.indirect c.hl)
  | .subAR r =>
      match c.getRegisterValue r with
      | some v =>
          let regValue := CPU.negate v
          some { c with
                  registerF := updateFlagsSub c.registerF c.registerA regValue
                  registerA := (regValue + c.registerA) % 256 }
      | none => some c
  | .subAN => do
      let arg0 ← c.read c.programCounter
      let arg := CPU.negate arg0
      let c := { c with programCounter := (c.programCounter + 1) % 65536 }
      pure { c with
              registerF := updateFlagsSub c.registerF c.registerA arg
              registerA := (c.registerA + arg) % 256 }
  | .subAHL => do
      let arg0 ← c.read c.hl
      let arg := CPU.negate arg0
      pure { c with
              registerF := updateFlagsSub c.registerF c.registerA arg
              registerA := (c.registerA + arg) % 256 }
  | .sbcAR r => c.sbc (.register r)
  | .sbcAN => c.sbc .immediate
  | .sbcAHL => c.sbc (.indirect c.hl)
  | .andAR r =>
      match c.getRegisterValue r with
      | some v =>
          let a := c.registerA &&& v
          some { c with registerA := a
                        registerF := 0b00100000 ||| ((if a = 0 then 1 else 0) <<< 7) }
      | none => some c
  | .andAN => do
      let arg ← c.read c.programCounter
      let c := { c with programCounter := (c.programCounter + 1) % 65536 }
      let a := c.registerA &&& arg
      pure { c with registerA := a
                    registerF := 0b00100000 ||| ((if a = 0 then 1 else 0) <<< 7) }
  | .andAHL => do
      let arg ← c.read c.hl
      let a := c.registerA &&& arg
      pure { c with registerA := a
                    registerF := 0b00100000 ||| ((if a = 0 then 1 else 0) <<< 7) }
  | .xorAR r =>
      match c.getRegisterValue r with
      | some v =>
          let a := c.registerA ^^^ v
          some { c with registerA := a
                        registerF := (if a = 0 then 1 else 0) <<< 7 }
      | none => some c
  | .xorAN => do
      let arg ← c.read c.programCounter
      let c := { c with programCounter := (c.programCounter + 1) % 65536 }
      let a := c.registerA ^^^ arg
      pure { c with registerA := a, registerF := (if a = 0 then 1 else 0) <<< 7 }
  | .xorAHL => do
      let arg ← c.read c.hl
      let a := c.registerA ^^^ arg
      pure { c with registerA := a, registerF := (if a = 0 then 1 else 0) <<< 7 }
  | .orAR r =>
      match c.getRegisterValue r with
      | some v =>
          let a := c.registerA ||| v
          some { c with registerA := a
                        registerF := (if a = 0 then 1 else 0) <<< 7 }
      | none => some c
  | .orAN => do
      let arg ← c.read c.programCounter
      let c := { c with programCounter := (c.programCounter + 1) % 65536 }
      let a := c.registerA ||| arg
      pure { c with registerA := a, registerF := (if a = 0 then 1 else 0) <<< 7 }
  | .orAHL => do
      let arg ← c.read c.hl
      let a := c.registerA ||| arg
      pure { c with registerA := a, registerF := (if a = 0 then 1 else 0) <<< 7 }
  | .cpAR r =>
      match c.getRegisterValue r with
      | some v =>
          some { c with registerF := updateFlagsSub c.registerF c.registerA (CPU.negate v) }
      | none => some c
  | .cpAN => do
      let arg0 ← c.read c.programCounter
      let arg := CPU.negate arg0
      let c := { c with programCounter := (c.programCounter + 1) % 65536 }
      pure { c with registerF := updateFlagsSub c.registerF c.registerA arg }
  | .cpAHL => do
      let arg0 ← c.read c.hl
      let arg := CPU.negate arg0
      pure { c with registerF := updateFlagsSub c.registerF c.registerA arg }
  | .incR r =>
      let initialCarryBit := 0b00010000 &&& c.registerF
      match c.getRegisterValue r with
      | some regValue =>
          let c := c.setRegister r ((regValue + 1) % 256)
          let f := updateFlagsAdd c.registerF regValue 1
          some { c with registerF := (f &&& 0b11101111) ||| initialCarryBit }
      | none => some c
  | .incHLInd => do
      let hlAddr := c.hl
      let initialValue ← c.read hlAddr
      let initialCarryBit := 0b00010000 &&& c.registerF
      let c ← c.write hlAddr ((initialValue + 1) % 256)
      let f := updateFlagsAdd c.registerF initialValue 1
      pure { c with registerF := (f &&& 0b11101111) ||| initialCarryBit }
  | .decR r =>
      let initialCarryBit := 0b00010000 &&& c.registerF
      match c.getRegisterValue r with
      | some regValue =>
          let c := c.setRegister r ((regValue + 255) % 256)
          let f := updateFlagsSub c.registerF regValue (CPU.negate 1)
          some { c with registerF := (f &&& 0b11101111) ||| initialCarryBit }
      | none => some c
  | .decHLInd => do
      let hlAddr := c.hl
      let initialValue ← c.read hlAddr
      let initialCarryBit := 0b00010000 &&& c.registerF
      let c ← c.write hlAddr ((initialValue + 255) % 256)
      let f := updateFlagsSub c.registerF initialValue (CPU.negate 1)
      pure { c with registerF := (f &&& 0b11101111) ||| initialCarryBit }
  | .daa => some c.execDaa
  | .cpl =>
      some { c with registerA := (c.registerA ^^^ 0xFF) % 256
                    registerF := c.registerF ||| 0b01100000 }
  | .addHLRR rr =>
      match c.pairValue rr with
      | some hv =>
          let f := c.registerF &&& 0b10111111
          let hlValue := combineBytes c.registerH c.registerL
          let other := combineBytes hv.1 hv.2
          let f := updateHcFlagsAddU16 f hlValue other
          let sum := (hlValue + other) % 65536
          some { c with registerF := f, registerH := sum >>> 8, registerL := sum % 256 }
      | none => some c
  | .addHLSP =>
      let highValue := (c.stackPointer >>> 8) % 256
      let lowValue := c.stackPointer % 256
      let f := c.registerF &&& 0b10111111
      let hlValue := combineBytes c.registerH c.registerL
      let other := combineBytes highValue lowValue
      let f := updateHcFlagsAddU16 f hlValue other
      let sum := (hlValue + other) % 65536
      some { c with registerF := f, registerH := sum >>> 8, registerL := sum % 256 }
  | .incRR rr =>
      match c.pairValue rr with
      | some hv =>
          let sum := (combineBytes hv.1 hv.2 + 1) % 65536
          some (c.setPair rr (sum >>> 8) (sum % 256))
      | none => some c
  | .incSP => some { c with stackPointer := (c.stackPointer + 1) % 65536 }
  | .decRR rr =>
      match c.pairValue rr with
      | some hv =>
          let sum := (combineBytes hv.1 hv.2 + 65535) % 65536
          some (c.setPair rr (sum >>> 8) (sum % 256))
      | none => some c
  | .decSP => some { c with stackPointer := (c.stackPointer + 65535) % 65536 }
  | .addSPDD => do
      let r ← c.readOperand .immediate
      let arg ← r.1
      let c := r.2
      let f := updateFlagsAdd c.registerF (c.stackPointer % 256) arg
      pure { c with registerF := f &&& 0b00111111
                    stackPointer := CPU.addSignedAsUnsigned c.stackPointer arg }
  | .ldHLSPDD => do
      let r ← c.readOperand .immediate
      let arg ← r.1
      let c := r.2
      let f := updateFlagsAdd c.registerF (c.stackPointer % 256) arg
      let sum := CPU.addSignedAsUnsigned c.stackPointer arg
      pure { c with registerF := f &&& 0b00111111
                    registerH := sum >>> 8
                    registerL := sum % 256 }
  | .rlca => do
      let c ← c.rlc (.register 7)
      pure { c with registerF := c.registerF &&& 0b01111111 }
  | .rla => do
      let c2 ← c.rl (.register 7) c.getCarryBit
      pure { c2 with registerF := c2.registerF &&& 0b01111111 }
  | .rrca => do
      let c ← c.rrc (.register 7)
      pure { c with registerF := c.registerF &&& 0b01111111 }
  | .rra => do
      let c2 ← c.rr (.register 7) c.getCarryBit
      pure { c2 with registerF := c2.registerF &&& 0b01111111 }
  | .cbDispatch => c.execCb
  | .ccf =>
      let carryFlag := 255 ^^^ ((c.registerF ||| 0b11101111) % 256)
      some { c with registerF := (c.registerF &&& 0b10000000) ||| carryFlag }
  | .scf => some { c with registerF := (c.registerF &&& 0b10000000) ||| 0b00010000 }
  | .nop => some c
  | .halt => some { c with halted := true }
  | .di => some { c with eiQueue := [some false] }
  | .ei => some { c with eiQueue := c.eiQueue ++ [none, some true] }
  | .jpNN => do
      let r ← c.readOperandU16 .immediateU16
      let dest ← r.1
      pure { r.2 with programCounter := dest % 65536 }
  | .jpHL => some { c with programCounter := combineBytes c.registerH c.registerL }
  | .jpF cc => do
      let r ← c.readOperandU16 .immediateU16
      let dest ← r.1
      let c := r.2
      if c.testConditionCode cc then pure { c with programCounter := dest % 65536 }
      else pure { c with changedCycles := some 3 }
  | .jrE => c.jr
  | .jrF cc =>
      if c.testConditionCode cc then c.jr
      else some { c with programCounter := (c.programCounter + 1) % 65536
                         changedCycles := some 2 }
  | .callNN => do
      let r ← c.readOperandU16 .immediateU16
      let dest ← r.1
      r.2.call dest
  | .callF cc => do
      let r ← c.readOperandU16 .immediateU16
      let dest ← r.1
      let c := r.2
      if c.testConditionCode cc then c.call dest
      else pure { c with changedCycles := some 3 }
  | .ret => do
      let v ← c.readU16 c.stackPointer
      pure { c with programCounter := v
                    stackPointer := (c.stackPointer + 2) % 65536 }
  | .retF cc =>
      if c.testConditionCode cc then do
        let v ← c.readU16 c.stackPointer
        pure { c with programCounter := v
                      stackPointer := (c.stackPointer + 2) % 65536 }
      else some { c with changedCycles := some 2 }
  | .reti => do
      let c := { c with ime := true }
      let v ← c.readU16 c.stackPointer
      pure { c with programCounter := v
                    stackPointer := (c.stackPointer + 2) % 65536 }
  | .rst target => c.call target
  | .unmapped => some c

/-- The final contents of the 256-entry instruction table built by
`map_instructions`, as a list indexed by opcode (later table assignments
overwrite earlier ones, e.g. 0x76 is HALT, not a LD; 0x36 is LD (HL),n;
0x86 is ADD A,(HL)).  Slots never assigned keep the do-nothing 1-cycle
initial closure (`unmapped`). -/
def instTable : List Inst :=
  [ Inst.nop  -- 0x00
  , Inst.ldRRNN 0  -- 0x01
  , Inst.ldBCA  -- 0x02
  , Inst.incRR 0  -- 0x03
  , Inst.incR 0  -- 0x04
  , Inst.decR 0  -- 0x05
  , Inst.ldRN 0  -- 0x06
  , Inst.rlca  -- 0x07
  , Inst.ldNNSP  -- 0x08
  , Inst.addHLRR 0  -- 0x09
  , Inst.ldABC  -- 0x0A
  , Inst.decRR 0  -- 0x0B
  , Inst.incR 1  -- 0x0C
  , Inst.decR 1  -- 0x0D
  , Inst.ldRN 1  -- 0x0E
  , Inst.rrca  -- 0x0F
  , Inst.unmapped  -- 0x10
  , Inst.ldRRNN 1  -- 0x11
  , Inst.ldDEA  -- 0x12
  , Inst.incRR 1  -- 0x13
  , Inst.incR 2  -- 0x14
  , Inst.decR 2  -- 0x15
  , Inst.ldRN 2  -- 0x16
  , Inst.rla  -- 0x17
  , Inst.jrE  -- 0x18
  , Inst.addHLRR 1  -- 0x19
  , Inst.ldADE  -- 0x1A
  , Inst.decRR 1  -- 0x1B
  , Inst.incR 3  -- 0x1C
  , Inst.decR 3  -- 0x1D
  , Inst.ldRN 3  -- 0x1E
  , Inst.rra  -- 0x1F
  , Inst.jrF 0  -- 0x20
  , Inst.ldRRNN 2  -- 0x21
  , Inst.ldiHLA  -- 0x22
  , Inst.incRR 2  -- 0x23
  , Inst.incR 4  -- 0x24
  , Inst.decR 4  -- 0x25
  , Inst.ldRN 4  -- 0x26
  , Inst.daa  -- 0x27
  , Inst.jrF 8  -- 0x28
  , Inst.addHLRR 2  -- 0x29
  , Inst.ldiAHL  -- 0x2A
  , Inst.decRR 2  -- 0x2B
  , Inst.incR 5  -- 0x2C
  , Inst.decR 5  -- 0x2D
  , Inst.ldRN 5  -- 0x2E
  , Inst.cpl  -- 0x2F
  , Inst.jrF 16  -- 0x30
  , Inst.ldSPNN  -- 0x31
  , Inst.lddHLA  -- 0x32
  , Inst.incSP  -- 0x33
  , Inst.incHLInd  -- 0x34
  , Inst.decHLInd  -- 0x35
  , Inst.ldHLN  -- 0x36
  , Inst.scf  -- 0x37
  , Inst.jrF 24  -- 0x38
  , Inst.addHLSP  -- 0x39
  , Inst.lddAHL  -- 0x3A
  , Inst.decSP  -- 0x3B
  , Inst.incR 7  -- 0x3C
  , Inst.decR 7  -- 0x3D
  , Inst.ldRN 7  -- 0x3E
  , Inst.ccf  -- 0x3F
  , Inst.ldRR 0 0  -- 0x40
  , Inst.ldRR 0 1  -- 0x41
  , Inst.ldRR 0 2  -- 0x42
  , Inst.ldRR 0 3  -- 0x43
  , Inst.ldRR 0 4  -- 0x44
  , Inst.ldRR 0 5  -- 0x45
  , Inst.ldRHL 0  -- 0x46
  , Inst.ldRR 0 7  -- 0x47
  , Inst.ldRR 1 0  -- 0x48
  , Inst.ldRR 1 1  -- 0x49
  , Inst.ldRR 1 2  -- 0x4A
  , Inst.ldRR 1 3  -- 0x4B
  , Inst.ldRR 1 4  -- 0x4C
  , Inst.ldRR 1 5  -- 0x4D
  , Inst.ldRHL 1  -- 0x4E
  , Inst.ldRR 1 7  -- 0x4F
  , Inst.ldRR 2 0  -- 0x50
  , Inst.ldRR 2 1  -- 0x51
  , Inst.ldRR 2 2  -- 0x52
  , Inst.ldRR 2 3  -- 0x53
  , Inst.ldRR 2 4  -- 0x54
  , Inst.ldRR 2 5  -- 0x55
  , Inst.ldRHL 2  -- 0x56
  , Inst.ldRR 2 7  -- 0x57
  , Inst.ldRR 3 0  -- 0x58
  , Inst.ldRR 3 1  -- 0x59
  , Inst.ldRR 3 2  -- 0x5A
  , Inst.ldRR 3 3  -- 0x5B
  , Inst.ldRR 3 4  -- 0x5C
  , Inst.ldRR 3 5  -- 0x5D
  , Inst.ldRHL 3  -- 0x5E
  , Inst.ldRR 3 7  -- 0x5F
  , Inst.ldRR 4 0  -- 0x60
  , Inst.ldRR 4 1  -- 0x61
  , Inst.ldRR 4 2  -- 0x62
  , Inst.ldRR 4 3  -- 0x63
  , Inst.ldRR 4 4  -- 0x64
  , Inst.ldRR 4 5  -- 0x65
  , Inst.ldRHL 4  -- 0x66
  , Inst.ldRR 4 7  -- 0x67
  , Inst.ldRR 5 0  -- 0x68
  , Inst.ldRR 5 1  -- 0x69
  , Inst.ldRR 5 2  -- 0x6A
  , Inst.ldRR 5 3  -- 0x6B
  , Inst.ldRR 5 4  -- 0x6C
  , Inst.ldRR 5 5  -- 0x6D
  , Inst.ldRHL 5  -- 0x6E
  , Inst.ldRR 5 7  -- 0x6F
  , Inst.ldHLR 0  -- 0x70
  , Inst.ldHLR 1  -- 0x71
  , Inst.ldHLR 2  -- 0x72
  , Inst.ldHLR 3  -- 0x73
  , Inst.ldHLR 4  -- 0x74
  , Inst.ldHLR 5  -- 0x75
  , Inst.halt  -- 0x76
  , Inst.ldHLR 7  -- 0x77
  , Inst.ldRR 7 0  -- 0x78
  , Inst.ldRR 7 1  -- 0x79
  , Inst.ldRR 7 2  -- 0x7A
  , Inst.ldRR 7 3  -- 0x7B
  , Inst.ldRR 7 4  -- 0x7C
  , Inst.ldRR 7 5  -- 0x7D
  , Inst.ldRHL 7  -- 0x7E
  , Inst.ldRR 7 7  -- 0x7F
  , Inst.addAR 0  -- 0x80
  , Inst.addAR 1  -- 0x81
  , Inst.addAR 2  -- 0x82
  , Inst.addAR 3  -- 0x83
  , Inst.addAR 4  -- 0x84
  , Inst.addAR 5  -- 0x85
  , Inst.addAHL  -- 0x86
  , Inst.addAR 7  -- 0x87
  , Inst.adcAR 0  -- 0x88
  , Inst.adcAR 1  -- 0x89
  , Inst.adcAR 2  -- 0x8A
  , Inst.adcAR 3  -- 0x8B
  , Inst.adcAR 4  -- 0x8C
  , Inst.adcAR 5  -- 0x8D
  , Inst.adcAHL  -- 0x8E
  , Inst.adcAR 7  -- 0x8F
  , Inst.subAR 0  -- 0x90
  , Inst.subAR 1  -- 0x91
  , Inst.subAR 2  -- 0x92
  , Inst.subAR 3  -- 0x93
  , Inst.subAR 4  -- 0x94
  , Inst.subAR 5  -- 0x95
  , Inst.subAHL  -- 0x96
  , Inst.subAR 7  -- 0x97
  , Inst.sbcAR 0  -- 0x98
  , Inst.sbcAR 1  -- 0x99
  , Inst.sbcAR 2  -- 0x9A
  , Inst.sbcAR 3  -- 0x9B
  , Inst.sbcAR 4  -- 0x9C
  , Inst.sbcAR 5  -- 0x9D
  , Inst.sbcAHL  -- 0x9E
  , Inst.sbcAR 7  -- 0x9F
  , Inst.andAR 0  -- 0xA0
  , Inst.andAR 1  -- 0xA1
  , Inst.andAR 2  -- 0xA2
  , Inst.andAR 3  -- 0xA3
  , Inst.andAR 4  -- 0xA4
  , Inst.andAR 5  -- 0xA5
  , Inst.andAHL  -- 0xA6
  , Inst.andAR 7  -- 0xA7
  , Inst.xorAR 0  -- 0xA8
  , Inst.xorAR 1  -- 0xA9
  , Inst.xorAR 2  -- 0xAA
  , Inst.xorAR 3  -- 0xAB
  , Inst.xorAR 4  -- 0xAC
  , Inst.xorAR 5  -- 0xAD
  , Inst.xorAHL  -- 0xAE
  , Inst.xorAR 7  -- 0xAF
  , Inst.orAR 0  -- 0xB0
  , Inst.orAR 1  -- 0xB1
  , Inst.orAR 2  -- 0xB2
  , Inst.orAR 3  -- 0xB3
  , Inst.orAR 4  -- 0xB4
  , Inst.orAR 5  -- 0xB5
  , Inst.orAHL  -- 0xB6
  , Inst.orAR 7  -- 0xB7
  , Inst.cpAR 0  -- 0xB8
  , Inst.cpAR 1  -- 0xB9
  , Inst.cpAR 2  -- 0xBA
  , Inst.cpAR 3  -- 0xBB
  , Inst.cpAR 4  -- 0xBC
  , Inst.cpAR 5  -- 0xBD
  , Inst.cpAHL  -- 0xBE
  , Inst.cpAR 7  -- 0xBF
  , Inst.retF 0  -- 0xC0
  , Inst.popRR 0  -- 0xC1
  , Inst.jpF 0  -- 0xC2
  , Inst.jpNN  -- 0xC3
  , Inst.callF 0  -- 0xC4
  , Inst.pushRR 0  -- 0xC5
  , Inst.addAN  -- 0xC6
  , Inst.rst 0  -- 0xC7
  , Inst.retF 8  -- 0xC8
  , Inst.ret  -- 0xC9
  , Inst.jpF 8  -- 0xCA
  , Inst.cbDispatch  -- 0xCB
  , Inst.callF 8  -- 0xCC
  , Inst.callNN  -- 0xCD
  , Inst.adcAN  -- 0xCE
  , Inst.rst 8  -- 0xCF
  , Inst.retF 16  -- 0xD0
  , Inst.popRR 1  -- 0xD1
  , Inst.jpF 16  -- 0xD2
  , Inst.unmapped  -- 0xD3
  , Inst.callF 16  -- 0xD4
  , Inst.pushRR 1  -- 0xD5
  , Inst.subAN  -- 0xD6
  , Inst.rst 16  -- 0xD7
  , Inst.retF 24  -- 0xD8
  , Inst.reti  -- 0xD9
  , Inst.jpF 24  -- 0xDA
  , Inst.unmapped  -- 0xDB
  , Inst.callF 24  -- 0xDC
  , Inst.unmapped  -- 0xDD
  , Inst.sbcAN  -- 0xDE
  , Inst.rst 24  -- 0xDF
  , Inst.ldhNA  -- 0xE0
  , Inst.popRR 2  -- 0xE1
  , Inst.ldhCA  -- 0xE2
  , Inst.unmapped  -- 0xE3
  , Inst.unmapped  -- 0xE4
  , Inst.pushRR 2  -- 0xE5
  , Inst.andAN  -- 0xE6
  , Inst.rst 32  -- 0xE7
  , Inst.addSPDD  -- 0xE8
  , Inst.jpHL  -- 0xE9
  , Inst.ldNNA  -- 0xEA
  , Inst.unmapped  -- 0xEB
  , Inst.unmapped  -- 0xEC
  , Inst.unmapped  -- 0xED
  , Inst.xorAN  -- 0xEE
  , Inst.rst 40  -- 0xEF
  , Inst.ldhAN  -- 0xF0
  , Inst.popRR 3  -- 0xF1
  , Inst.ldhAC  -- 0xF2
  , Inst.di  -- 0xF3
  , Inst.unmapped  -- 0xF4
  , Inst.pushRR 3  -- 0xF5
  , Inst.orAN  -- 0xF6
  , Inst.rst 48  -- 0xF7
  , Inst.ldHLSPDD  -- 0xF8
  , Inst.ldSPHL  -- 0xF9
  , Inst.ldANN  -- 0xFA
  , Inst.ei  -- 0xFB
  , Inst.unmapped  -- 0xFC
  , Inst.unmapped  -- 0xFD
  , Inst.cpAN  -- 0xFE
  , Inst.rst 56  -- 0xFF
  ]

/-- Base m-cycle counts of the table entries (the first argument of each
`Instruction::new`). -/
def instCyclesTable : List Nat :=
  [ 1, 3, 2, 2, 1, 1, 2, 1, 5, 2, 2, 2, 1, 1, 2, 1
  , 1, 3, 2, 2, 1, 1, 2, 1, 3, 2, 2, 2, 1, 1, 2, 1
  , 3, 3, 2, 2, 1, 1, 2, 1, 3, 2, 2, 2, 1, 1, 2, 1
  , 3, 3, 2, 2, 3, 3, 3, 1, 3, 2, 2, 2, 1, 1, 2, 1
  , 1, 1, 1, 1, 1, 1, 2, 1, 1, 1, 1, 1, 1, 1, 2, 1
  , 1, 1, 1, 1, 1, 1, 2, 1, 1, 1, 1, 1, 1, 1, 2, 1
  , 1, 1, 1, 1, 1, 1, 2, 1, 1, 1, 1, 1, 1, 1, 2, 1
  , 2, 2, 2, 2, 2, 2, 1, 2, 1, 1, 1, 1, 1, 1, 2, 1
  , 1, 1, 1, 1, 1, 1, 2, 1, 1, 1, 1, 1, 1, 1, 2, 1
  , 1, 1, 1, 1, 1, 1, 2, 1, 1, 1, 1, 1, 1, 1, 2, 1
  , 1, 1, 1, 1, 1, 1, 2, 1, 1, 1, 1, 1, 1, 1, 2, 1
  , 1, 1, 1, 1, 1, 1, 2, 1, 1, 1, 1, 1, 1, 1, 2, 1
  , 5, 3, 4, 4, 6, 4, 2, 4, 5, 4, 4, 2, 6, 6, 2, 4
  , 5, 3, 4, 1, 6, 4, 2, 4, 5, 4, 4, 1, 6, 1, 2, 4
  , 3, 3, 2, 1, 1, 4, 2, 4, 4, 1, 4, 1, 1, 1, 2, 4
  , 3, 3, 2, 1, 1, 4, 2, 4, 3, 2, 4, 1, 1, 1, 2, 4
  ]

/-- Look up the instruction-table entry for an opcode. -/
def decode (opcode : Nat) : Inst := instTable.getD opcode .unmapped

/-- Look up the base m-cycle count for an opcode. -/
def decodeCycles (opcode : Nat) : Nat := instCyclesTable.getD opcode 1

/-- The pair arguments `map_instructions` actually installs: the
`LD rr,nn` / `INC rr` / `DEC rr` closures are only built for the BC, DE
and HL pairs (opcodes 0x31, 0x33 and 0x3B are the SP forms), never for
code 3 (AF). -/
def Inst.fSafe : Inst → Bool
  | .ldRRNN dest => decide (dest ≠ 3)
  | .incRR rr => decide (rr ≠ 3)
  | .decRR rr => decide (rr ≠ 3)
  | _ => true

/-- The ei-queue step at the top of `CPU::handle_interrupts`: pop one
pending IME write (when the queue is non-empty) and apply it if it is a
`Some`. -/
def CPU.popEiQueue (c : CPU) : CPU :=
  match c.eiQueue with
  | [] => c
  | some b :: rest => { c with ime := b, eiQueue := rest }
  | none :: rest => { c with eiQueue := rest }

/-- The remainder of `CPU::handle_interrupts`: compute `IE & IF & 0x1F`; a
pending interrupt with IME off only clears `halted` (0 extra m-cycles);
with IME on, IME is cleared, the highest-priority pending bit is cleared
in IF, PC is pushed and control transfers to the vector, for 5 m-cycles. -/
def CPU.interruptCheck (c : CPU) : Option (Nat × CPU) := do
  let interruptFlags ← c.read 0xFF0F
  let interruptEnabled ← c.read 0xFFFF
  let interrupts := interruptFlags &&& interruptEnabled &&& 0b00011111
  if interrupts ≠ 0 then
    if ¬c.ime then pure (0, { c with halted := false })
    else
      let c := { c with ime := false }
      if interrupts &&& 0b00000001 = 1 then do
        let c ← c.write 0xFF0F (interruptFlags &&& 0b11111110)
        let c ← c.call 0x0040
        pure (5, c)
      else if (interrupts &&& 0b00000010) >>> 1 = 1 then do
        let c ← c.write 0xFF0F (interruptFlags &&& 0b11111101)
        let c ← c.call 0x0048
        pure (5, c)
      else if (interrupts &&& 0b00000100) >>> 2 = 1 then do
        let c ← c.write 0xFF0F (interruptFlags &&& 0b11111011)
        let c ← c.call 0x0050
        pure (5, c)
      else if (interrupts &&& 0b00001000) >>> 3 = 1 then do
        let c ← c.write 0xFF0F (interruptFlags &&& 0b11110111)
        let c ← c.call 0x0058
        pure (5, c)
      else if (interrupts &&& 0b00010000) >>> 4 = 1 then do
        let c ← c.write 0xFF0F (interruptFlags &&& 0b11101111)
        let c ← c.call 0x0060
        pure (5, c)
      else pure (0, c)
  else pure (0, c)

/-- `CPU::handle_interrupts`: the ei-queue pop followed by the interrupt
check. -/
def CPU.handleInterrupts (c : CPU) : Option (Nat × CPU) :=
  c.popEiQueue.interruptCheck

/-- `CPU::execute`: fetch-decode-execute when not halted (1 m-cycle
otherwise), add the interrupt step's cycles, and return dots
(`cycles * 4`) together with the new state. -/
def CPU.step (c : CPU) : Option (Nat × CPU) := do
  let r ←
    if ¬c.halted then do
      let opcode ← c.read c.programCounter
      let c := { c with programCounter := (c.programCounter + 1) % 65536 }
      let c ← (decode opcode).exec c
      match c.changedCycles with
      | some newCycles => pure (newCycles, { c with changedCycles := none })
      | none => pure (decodeCycles opcode, c)
    else pure (1, c)
  let s ← r.2.handleInterrupts
  pure ((r.1 + s.1) * 4, s.2)

/-- Iterated `CPU::execute`, discarding the returned dot counts. -/
def CPU.stepN : Nat → CPU → Option CPU
  | 0, c => some c
  | n + 1, c => do
      let r ← c.step
      CPU.stepN n r.2

/-- A sequence of data writes to the BCPD palette-data port. -/
def writeBcpdList (m : MemManager) (ds : List Nat) : Option MemManager :=
  ds.foldlM (fun acc d => acc.write BCPD_ADDRESS d) m

/-- The pending-interrupt mask `IF & IE & 0x1F` computed by
`handle_interrupts`. -/
def CPU.pendingInterrupts (c : CPU) : Option Nat := do
  let interruptFlags ← c.read 0xFF0F
  let interruptEnabled ← c.read 0xFFFF
  pure (interruptFlags &&& interruptEnabled &&& 0b00011111)

/-- A concrete CPU state with the documented post-boot register values over
a fresh memory (used to instantiate universally quantified theorems). -/
def cpu0 : CPU :=
  { registerA := 0x11
    registerF := 0x80
    registerB := 0x00
    registerC := 0x00
    registerD := 0xFF
    registerE := 0x56
    registerH := 0x00
    registerL := 0x0D
    stackPointer := 0xFFFE
    programCounter := 0x0100
    memory := MemManager.new
    halted := false
    ime := false
    eiQueue := []
    changedCycles := none }

end GBC

namespace GBC

/-! ## Shared arithmetic and store lemmas -/

theorem testBit_mod16 (x i : Nat) : (x % 16).testBit i = (decide (i < 4) && x.testBit i) := by
  have h16 : (16:Nat) = 2^4 := by norm_num
  rw [h16, Nat.testBit_mod_two_pow]

theorem mod16_land (x m : Nat) : (x &&& m) % 16 = (x % 16) &&& (m % 16) := by
  apply Nat.eq_of_testBit_eq
  intro i
  rw [testBit_mod16, Nat.testBit_land, Nat.testBit_land, testBit_mod16, testBit_mod16]
  by_cases h : i < 4 <;> simp [h]

theorem mod16_lor (x m : Nat) : (x ||| m) % 16 = (x % 16) ||| (m % 16) := by
  apply Nat.eq_of_testBit_eq
  intro i
  rw [testBit_mod16, Nat.testBit_lor, Nat.testBit_lor, testBit_mod16, testBit_mod16]
  by_cases h : i < 4 <;> simp [h]

theorem mod16_xor (x m : Nat) : (x ^^^ m) % 16 = (x % 16) ^^^ (m % 16) := by
  apply Nat.eq_of_testBit_eq
  intro i
  rw [testBit_mod16, Nat.testBit_xor, Nat.testBit_xor, testBit_mod16, testBit_mod16]
  by_cases h : i < 4 <;> simp [h]

theorem mod16_shiftl7 (x : Nat) : (x <<< 7) % 16 = 0 := by
  rw [Nat.shiftLeft_eq]
  norm_num
  omega

theorem mod16_shiftl4 (x : Nat) : (x <<< 4) % 16 = 0 := by
  rw [Nat.shiftLeft_eq]
  norm_num

theorem mod16_mod256 (x : Nat) : (x % 256) % 16 = x % 16 :=
  Nat.mod_mod_of_dvd x (by norm_num)

theorem land15_small : ∀ y < 16, y &&& 15 = y := by decide

theorem mod16_land15 (x : Nat) : x % 16 &&& 15 = x % 16 :=
  land15_small _ (Nat.mod_lt _ (by norm_num))

theorem lor15_small : ∀ y < 16, y ||| 15 = 15 := by decide

/-- Store round trip: reading back the written cell. -/
theorem Store.load_put_self (s : Store) (a d : Nat) : (s.put a d).load a = d := by
  induction s with
  | nil => simp [Store.put, Store.load]
  | cons hd tl ih =>
      obtain ⟨b, e⟩ := hd
      by_cases h : b = a <;> simp [Store.put, Store.load, h, ih]

/-- Store frame: other cells are untouched. -/
theorem Store.load_put_ne (s : Store) (a d x : Nat) (h : x ≠ a) :
    (s.put a d).load x = s.load x := by
  induction s with
  | nil => simp [Store.put, Store.load, Ne.symm h]
  | cons hd tl ih =>
      obtain ⟨b, e⟩ := hd
      by_cases hb : b = a
      · subst hb
        simp [Store.put, Store.load, Ne.symm h]
      · simp [Store.put, Store.load, hb, ih]

theorem Store.get8_put8_self (s : Store) (a d : Nat) : (s.put8 a d).get8 a = d % 256 := by
  simp [Store.get8, Store.put8, Store.load_put_self, Nat.mod_mod_of_dvd]

theorem Store.get8_put8_ne (s : Store) (a d x : Nat) (h : x ≠ a) :
    (s.put8 a d).get8 x = s.get8 x := by
  simp [Store.get8, Store.put8, Store.load_put_ne _ _ _ _ h]

/-! ## Reads and writes at plain high addresses

For any address above the banked regions that is not one of the special
registers, `MemManager.read` is a plain array read and `MemManager.write`
a plain array store, regardless of the rest of the state. -/

theorem MemManager.read_plain_high (m : MemManager) (a : Nat)
    (h1 : 0xDFFF < a) (h2 : a ≠ OCPD_ADDRESS) (h3 : a ≠ BCPD_ADDRESS) :
    m.read a = some (m.memory.get8 a) := by
  unfold MemManager.read
  rw [if_neg, if_neg, if_neg, if_neg, if_neg, if_neg]
  · exact h3
  · exact h2
  · intro hc; omega
  · intro hc; omega
  · intro hc; omega
  · intro hc; omega

theorem MemManager.write_plain_high (m : MemManager) (a d : Nat)
    (h0 : a ≠ 0xFF00) (h1 : 0xDFFF < a) (h2 : a ≠ OCPD_ADDRESS)
    (h3 : a ≠ BCPD_ADDRESS) (h4 : a ≠ DIV_ADDRESS) :
    m.write a d = some { m with memory := m.memory.put8 a d } := by
  unfold MemManager.write
  rw [if_neg h0, if_neg, if_neg, if_neg, if_neg, if_neg h2, if_neg h3, if_neg h4]
  · simp [Store.put8, Nat.mod_mod_of_dvd]
  · intro hc; omega
  · intro hc; omega
  · intro hc; omega
  · intro hc; omega

end GBC


namespace GBC

/-! ## Reads and writes of the palette ports -/

/-- Reading BCPD returns the background palette byte at the index register's
low six bits, for every state. -/
theorem MemManager.read_bcpd (m : MemManager) :
    m.read BCPD_ADDRESS =
      some (m.backgroundPalettes.get8 (m.memory.get8 BCPS_ADDRESS &&& 0b00111111)) := by
  unfold MemManager.read
  rw [if_neg (by norm_num [BCPD_ADDRESS]), if_neg (by norm_num [BCPD_ADDRESS]),
      if_neg (by norm_num [BCPD_ADDRESS]), if_neg (by norm_num [BCPD_ADDRESS]),
      if_neg (by norm_num [BCPD_ADDRESS, OCPD_ADDRESS]), if_pos rfl]

/-- Reading OCPD returns the object palette byte at the index register's
low six bits, for every state. -/
theorem MemManager.read_ocpd (m : MemManager) :
    m.read OCPD_ADDRESS =
      some (m.objectPalettes.get8 (m.memory.get8 OCPS_ADDRESS &&& 0b00111111)) := by
  unfold MemManager.read
  rw [if_neg (by norm_num [OCPD_ADDRESS]), if_neg (by norm_num [OCPD_ADDRESS]),
      if_neg (by norm_num [OCPD_ADDRESS]), if_neg (by norm_num [OCPD_ADDRESS]),
      if_pos rfl]

/-- Writing BCPD stores the byte at the index register's low six bits and,
when bit 7 of the index register is set, rewrites the index register to
`(index & 0x80) | (low6 + 1)` (the sum is not wrapped to six bits, and
bit 6 of the old register value is dropped). -/
theorem MemManager.write_bcpd (m : MemManager) (d : Nat) :
    m.write BCPD_ADDRESS d =
      (let bcps := m.memory.get8 BCPS_ADDRESS
       let paletteIndex := bcps &&& 0b00111111
       let m2 := { m with
                    backgroundPalettes := m.backgroundPalettes.put8 paletteIndex d }
       if bcps &&& 0b10000000 ≠ 0 then
         some { m2 with memory :=
           m2.memory.put8 BCPS_ADDRESS ((bcps &&& 0b10000000) ||| (paletteIndex + 1)) }
       else some m2) := by
  unfold MemManager.write
  rw [if_neg (by norm_num [BCPD_ADDRESS]), if_neg (by norm_num [BCPD_ADDRESS]),
      if_neg (by norm_num [BCPD_ADDRESS]), if_neg (by norm_num [BCPD_ADDRESS]),
      if_neg (by norm_num [BCPD_ADDRESS]),
      if_neg (by norm_num [BCPD_ADDRESS, OCPD_ADDRESS]), if_pos rfl]
  simp [Store.put8, Nat.mod_mod_of_dvd]

end GBC

namespace GBC

/-! ## Claim C10 -/

/-- C10: reading `BCPD` (resp. `OCPD`) returns the background (object)
palette byte selected by the corresponding index register's low 6 bits.
`MemManager.read` takes `&self` in the source and is embedded as a pure
function of the state, so a read leaves the index registers and both
palette arrays unchanged; the auto-increment exists only in the write path
(`MemManager.write_bcpd`). -/
theorem claim10_palette_reads_pure (m : MemManager) :
    m.read BCPD_ADDRESS =
        some (m.backgroundPalettes.get8 (m.memory.get8 BCPS_ADDRESS &&& 0x3F)) ∧
      m.read OCPD_ADDRESS =
        some (m.objectPalettes.get8 (m.memory.get8 OCPS_ADDRESS &&& 0x3F)) :=
  ⟨MemManager.read_bcpd m, MemManager.read_ocpd m⟩

/-! ## Claim C1 -/

set_option maxRecDepth 16384

theorem get8_lt (s : Store) (a : Nat) : s.get8 a < 256 :=
  Nat.mod_lt _ (by norm_num)

theorem bcps_step_bit7 :
    ∀ b < 256, b &&& 0x80 ≠ 0 →
      ((b &&& 0x80) ||| ((b &&& 0x3F) + 1)) &&& 0x80 ≠ 0 ∧
      ((b &&& 0x80) ||| ((b &&& 0x3F) + 1)) &&& 0x3F = ((b &&& 0x3F) + 1) % 64 ∧
      ((b &&& 0x80) ||| ((b &&& 0x3F) + 1)) &&& 0x80 = b &&& 0x80 ∧
      ((b &&& 0x80) ||| ((b &&& 0x3F) + 1)) < 256 := by decide

theorem land3F_lt : ∀ b < 256, b &&& 0x3F < 64 := by decide

/-- Abstract single-write specification derived from
`MemManager.write_bcpd`. -/
theorem MemManager.write_bcpd_spec (m : MemManager) (d : Nat) :
    ∃ m1, m.write BCPD_ADDRESS d = some m1 ∧
      m1.backgroundPalettes.get8 (m.memory.get8 BCPS_ADDRESS &&& 0x3F) = d % 256 ∧
      m1.memory.get8 BCPS_ADDRESS =
        (if m.memory.get8 BCPS_ADDRESS &&& 0x80 ≠ 0 then
          (m.memory.get8 BCPS_ADDRESS &&& 0x80) |||
            ((m.memory.get8 BCPS_ADDRESS &&& 0x3F) + 1)
        else m.memory.get8 BCPS_ADDRESS) := by
  have hw := MemManager.write_bcpd m d
  have hblt : m.memory.get8 BCPS_ADDRESS < 256 := get8_lt _ _
  by_cases h7 : m.memory.get8 BCPS_ADDRESS &&& 0x80 ≠ 0
  · rw [if_pos h7] at hw
    obtain ⟨_, _, _, hsteplt⟩ := bcps_step_bit7 _ hblt h7
    refine ⟨_, hw, ?_, ?_⟩
    · simp only [Store.get8_put8_self]
    · simp only [Store.get8_put8_self, if_pos h7]
      exact Nat.mod_eq_of_lt hsteplt
  · rw [if_neg h7] at hw
    refine ⟨_, hw, ?_, ?_⟩
    · simp only [Store.get8_put8_self]
    · simp only [if_neg h7]

/-- Auto-increment accumulated over a non-empty list of BCPD data writes:
the index register ends at
`(b0 & 0x80) | (((b0 & 0x3F) + N - 1) % 64 + 1)` where `b0` is the initial
register value and `N` the number of writes. -/
theorem writeBcpdList_index :
    ∀ (ds : List Nat) (m : MemManager),
      m.memory.get8 BCPS_ADDRESS &&& 0x80 ≠ 0 → ds ≠ [] →
      ∃ m2, writeBcpdList m ds = some m2 ∧
        m2.memory.get8 BCPS_ADDRESS =
          (m.memory.get8 BCPS_ADDRESS &&& 0x80) |||
            (((m.memory.get8 BCPS_ADDRESS &&& 0x3F) + (ds.length - 1)) % 64 + 1) := by
  intro ds
  induction ds with
  | nil => intro m h7 hne; exact absurd rfl hne
  | cons d ds ih =>
      intro m h7 _
      have hblt : m.memory.get8 BCPS_ADDRESS < 256 := get8_lt _ _
      obtain ⟨hstep7, hstep3F, hstep80, hsteplt⟩ := bcps_step_bit7 _ hblt h7
      obtain ⟨m1, hw1, _, hreg1⟩ := MemManager.write_bcpd_spec m d
      rw [if_pos h7] at hreg1
      have hfold : ∀ (mm : MemManager) (x : Nat) (l : List Nat),
          writeBcpdList mm (x :: l) =
            (mm.write BCPD_ADDRESS x).bind (fun acc => writeBcpdList acc l) := by
        intro mm x l
        simp [writeBcpdList, List.foldlM_cons]
      cases hds : ds with
      | nil =>
          rw [hfold, hw1, Option.some_bind]
          refine ⟨m1, by simp [writeBcpdList], ?_⟩
          rw [hreg1]
          have hlt := land3F_lt _ hblt
          congr 1
          simp only [List.length_cons, List.length_nil]
          omega
      | cons e es =>
          rw [← hds]
          obtain ⟨m2, hrun, hreg⟩ := ih m1
            (by rw [hreg1]; exact hstep7) (by rw [hds]; simp)
          refine ⟨m2, ?_, ?_⟩
          · rw [hfold, hw1, Option.some_bind]
            exact hrun
          · rw [hreg, hreg1, hstep80, hstep3F]
            have hlen : ds.length ≥ 1 := by rw [hds]; simp
            have hlt := land3F_lt _ hblt
            congr 1
            simp only [List.length_cons]
            omega

/-- C1 as amended: a write to BCPD stores the data byte into the 64-byte
background palette array at the index register's low 6 bits; when the
index register's bit 7 is set, the register becomes
`(old & 0x80) | ((old & 0x3F) + 1)` — the 6-bit increment is not reduced
modulo 0x40 (0x3F + 1 spills into bit 6) and bit 6 of the old value is
dropped (not preserved, as the claimed `old & 0xC0` would preserve it);
when bit 7 is clear the register is unchanged.  Hence after N ≥ 1 data
writes with bit 7 set the register equals
`(old & 0x80) | (((old & 0x3F) + N − 1) % 0x40 + 1)`.  (The OCPD arm of
the source is the same logic on the object palettes.) -/
theorem claim1_amended :
    (∀ (m : MemManager) (d : Nat),
      ∃ m1, m.write BCPD_ADDRESS d = some m1 ∧
        m1.backgroundPalettes.get8 (m.memory.get8 BCPS_ADDRESS &&& 0x3F) = d % 256 ∧
        m1.memory.get8 BCPS_ADDRESS =
          (if m.memory.get8 BCPS_ADDRESS &&& 0x80 ≠ 0 then
            (m.memory.get8 BCPS_ADDRESS &&& 0x80) |||
              ((m.memory.get8 BCPS_ADDRESS &&& 0x3F) + 1)
          else m.memory.get8 BCPS_ADDRESS)) ∧
    (∀ (ds : List Nat) (m : MemManager),
      m.memory.get8 BCPS_ADDRESS &&& 0x80 ≠ 0 → ds ≠ [] →
      ∃ m2, writeBcpdList m ds = some m2 ∧
        m2.memory.get8 BCPS_ADDRESS =
          (m.memory.get8 BCPS_ADDRESS &&& 0x80) |||
            (((m.memory.get8 BCPS_ADDRESS &&& 0x3F) + (ds.length - 1)) % 64 + 1)) :=
  ⟨MemManager.write_bcpd_spec, writeBcpdList_index⟩

/-- C1 counterexample: start from a fresh memory manager, set the
background palette index register to 0xBF (bit 7 set, low six bits 0x3F)
and write one data byte to BCPD.  The code leaves the index register at
0xC0 (the unwrapped increment 0x3F + 1 = 0x40 spilled into bit 6), while
the claim's formula `(old & 0xC0) | ((old + N) & 0x3F)` demands 0x80. -/
theorem claim1_counterexample :
    ((MemManager.new.write BCPS_ADDRESS 0xBF).bind
        (fun m => (m.write BCPD_ADDRESS 0xAA).bind
          (fun m2 => m2.read BCPS_ADDRESS))) = some 0xC0 ∧
      (0xBF &&& 0xC0) ||| ((0xBF + 1) &&& 0x3F) = 0x80 := by
  exact ⟨by decide, by decide⟩

/-- Witness for `claim1_amended`: two auto-incrementing writes from index
register 0x80 land the register at
`(0x80 & 0x80) | (((0x80 & 0x3F) + 1) % 64 + 1)` = 0x82. -/
theorem claim1_amended_witness :
    ∃ m2, writeBcpdList { MemManager.new with memory := [(BCPS_ADDRESS, 0x80)] }
        [0x11, 0x22] = some m2 ∧
      m2.memory.get8 BCPS_ADDRESS =
        (({ MemManager.new with
              memory := [(BCPS_ADDRESS, 0x80)] } : MemManager).memory.get8
            BCPS_ADDRESS &&& 0x80) |||
          (((({ MemManager.new with
                  memory := [(BCPS_ADDRESS, 0x80)] } : MemManager).memory.get8
                BCPS_ADDRESS &&& 0x3F) +
              (([0x11, 0x22] : List Nat).length - 1)) % 64 + 1) :=
  claim1_amended.2 [0x11, 0x22]
    { MemManager.new with memory := [(BCPS_ADDRESS, 0x80)] }
    (by decide) (by decide)

end GBC

namespace GBC

/-! ## Claim C9 -/

/-- C9 counterexample: fresh MBC1 (4 ROM banks, 1 RAM bank), RAM enabled by
writing 0x0A into 0x0000–0x1FFF, banking-mode bit left at 0.  A write to
0xA000 followed by a read of 0xA000 yields 0 (the write was dropped: the
external-RAM write arm additionally requires `using_ram_banking`), not the
written byte; setting the mode bit to 1 first makes the round trip work.
This refutes "regardless of the banking-mode bit". -/
theorem claim9_counterexample :
    ((MBC1.new 4 1).write 0x0000 0x0A).bind
        (fun mbc => (mbc.write 0xA000 0xAB).bind (fun mbc2 => mbc2.read 0xA000)) =
      some 0x00 ∧
    ((MBC1.new 4 1).write 0x0000 0x0A).bind
        (fun mbc => (mbc.write 0x6000 1).bind
          (fun mbc2 => (mbc2.write 0xA000 0xAB).bind
            (fun mbc3 => mbc3.read 0xA000))) = some 0xAB := by
  exact ⟨by decide, by decide⟩

/-- C9 as amended: writing 0x0A (in the low nibble) to 0x0000–0x1FFF
enables RAM; external-RAM **reads** are gated by the ram-enable latch
alone, but external-RAM **writes** additionally require the banking-mode
bit, so the write-then-read round trip at 0xA000–0xBFFF holds when RAM is
enabled AND the banking mode bit is 1 (with the selected RAM bank in
range), not regardless of the banking-mode bit. -/
theorem claim9_amended :
    (∀ (mbc : MBC1) (a d : Nat), a ≤ 0x1FFF →
      ∃ mbc2, mbc.write a d = some mbc2 ∧
        (mbc2.ramEnabled = true ↔ (d % 256) &&& 0x0F = 0x0A)) ∧
    (∀ (mbc : MBC1) (a d : Nat),
      mbc.ramEnabled = true → mbc.usingRamBanking = true →
      mbc.ramBankIndex < mbc.ramLen → 0xA000 ≤ a → a ≤ 0xBFFF →
      (mbc.write a d).bind (fun mbc2 => mbc2.read a) = some (d % 256)) := by
  constructor
  · intro mbc a d ha
    unfold MBC1.write
    rw [if_pos ha]
    exact ⟨_, rfl, by simp⟩
  · intro mbc a d hen hmode hbank ha1 ha2
    unfold MBC1.write
    rw [if_neg (by omega), if_neg (by omega), if_neg (by omega), if_neg (by omega),
        if_pos ⟨⟨ha1, ha2⟩, hen, hmode⟩, if_pos hbank, Option.some_bind]
    unfold MBC1.read
    rw [if_neg (by omega), if_neg (by omega)]
    simp only [if_pos hbank]
    rw [if_pos]
    · simp [Store.get8_put8_self, Nat.mod_mod_of_dvd]
    · exact ⟨⟨ha1, ha2⟩, hen⟩

/-- Witness for `claim9_amended`: enabling RAM on a fresh MBC1 and the
round trip at 0xA123 in mode 1. -/
theorem claim9_amended_witness :
    (∃ mbc2, (MBC1.new 4 1).write 0x1000 0x2A = some mbc2 ∧
      (mbc2.ramEnabled = true ↔ (0x2A % 256) &&& 0x0F = 0x0A)) ∧
    (({ MBC1.new 4 1 with ramEnabled := true, usingRamBanking := true } :
        MBC1).write 0xA123 0x77).bind (fun mbc2 => mbc2.read 0xA123) =
      some (0x77 % 256) :=
  ⟨claim9_amended.1 (MBC1.new 4 1) 0x1000 0x2A (by norm_num),
   claim9_amended.2 _ 0xA123 0x77 rfl rfl (by norm_num [MBC1.new]) (by norm_num)
     (by norm_num)⟩

/-! ## Claim C3 -/

/-- C3 counterexample: write 0xE0 to the OAM DMA source register and run
the DMA controller.  The source's `assert!(source_value <= 0xDF)` fails, a
panic (`none` in this embedding): the out-of-range source is not "ignored
with emulation continuing". -/
theorem claim3_counterexample :
    ((MemManager.new.write OAM_DMA_SRC_ADDRESS 0xE0).bind
      (fun m => DMAController.handleOamDma ⟨false, 0⟩ m 0)).isNone = true := by
  decide

/-- C3 as amended: a value above 0xDF (other than the 0xFF idle sentinel)
in the OAM DMA source register is treated as a programming error by a
failed assertion: the DMA update panics instead of ignoring the value and
continuing.  (No transfer happens, but the emulation aborts.) -/
theorem claim3_amended (m : MemManager) (cycles s : Nat)
    (hs : m.read OAM_DMA_SRC_ADDRESS = some s) (hne : s ≠ 0xFF)
    (hgt : 0xDF < s) :
    DMAController.handleOamDma ⟨false, 0⟩ m cycles = none := by
  unfold DMAController.handleOamDma
  rw [if_neg (by simp)]
  unfold DMAController.triggerOamDma
  simp only [hs, Option.bind_eq_bind, Option.some_bind, OAM_SRC_SENTINEL]
  rw [if_pos hne, if_neg (by omega)]

/-- Witness for `claim3_amended` at the concrete state of the
counterexample. -/
theorem claim3_amended_witness :
    DMAController.handleOamDma ⟨false, 0⟩
      { MemManager.new with memory := [(OAM_DMA_SRC_ADDRESS, 0xE0)] } 7 = none :=
  claim3_amended _ 7 0xE0 (by decide) (by decide) (by decide)

end GBC

namespace GBC

/-! ## Claim C2 -/

/-- C2, evaluating the code at the failing input: 8-pixel sprites (LCDC
bit 2 clear), OAM sprite 0 with stored y = 4, LY = 0.  The scanner's range
for this sprite is `max(4 - 8, 0) .. 4` = `0 .. 4`, which contains LY = 0,
so the sprite IS selected (count 1); the claim's vertical extent
`y − 16 .. y − 16 + height` = `−12 .. −4` does not contain 0, so the claim
demands count 0.  The second conjunct records that LY = 0 lies outside the
claimed extent. -/
theorem claim2_scan_eval :
    selectObjects { MemManager.new with memory := [(0xFE00, 4)] } =
        some [0xFE00] ∧
      ¬ ((4:ℤ) - 16 ≤ 0 ∧ (0:ℤ) < 4 - 16 + 8) := by
  exact ⟨by decide, by decide⟩

/-! ## CPU frame lemmas -/

theorem CPU.write_frame (c : CPU) (a d : Nat) (c2 : CPU)
    (h : c.write a d = some c2) : c2 = { c with memory := c2.memory } := by
  unfold CPU.write at h
  cases hm : c.memory.write a d with
  | none => rw [hm] at h; simp at h
  | some m =>
      rw [hm] at h
      simp only [Option.map_some'] at h
      cases h
      rfl

theorem CPU.writeU16_frame (c : CPU) (a d : Nat) (c2 : CPU)
    (h : c.writeU16 a d = some c2) : c2 = { c with memory := c2.memory } := by
  unfold CPU.writeU16 at h
  simp only [Option.bind_eq_bind, Option.bind_eq_some] at h
  obtain ⟨c1, h1, h2⟩ := h
  have e1 := CPU.write_frame _ _ _ _ h1
  have e2 := CPU.write_frame _ _ _ _ h2
  rw [e2, e1]

theorem CPU.call_frame (c : CPU) (a : Nat) (c2 : CPU)
    (h : c.call a = some c2) :
    c2 = { c with stackPointer := c2.stackPointer
                  programCounter := c2.programCounter
                  memory := c2.memory } := by
  unfold CPU.call at h
  simp only [Option.bind_eq_bind, Option.bind_eq_some] at h
  obtain ⟨c1, h1, h2⟩ := h
  have e1 := CPU.writeU16_frame _ _ _ _ h1
  simp only [Option.pure_def, Option.some.injEq] at h2
  rw [← h2, e1]

/-- The interrupt check changes no register file entry other than `ime`,
`halted`, `stackPointer`, `programCounter` and the memory; in particular
the EI queue and the flags register are untouched. -/
theorem CPU.interruptCheck_frame (c : CPU) (n : Nat) (c2 : CPU)
    (h : c.interruptCheck = some (n, c2)) :
    c2 = { c with ime := c2.ime
                  halted := c2.halted
                  stackPointer := c2.stackPointer
                  programCounter := c2.programCounter
                  memory := c2.memory } := by
  unfold CPU.interruptCheck at h
  simp only [Option.bind_eq_bind, Option.bind_eq_some] at h
  obtain ⟨flags, hflags, h⟩ := h
  obtain ⟨enabled, henabled, h⟩ := h
  have vector : ∀ (mask v : Nat), ((do
      let cx ← CPU.write { c with ime := false } 0xFF0F (flags &&& mask)
      let cx ← cx.call v
      pure (5, cx) : Option (Nat × CPU)) = some (n, c2)) →
      c2 = { c with ime := c2.ime
                    halted := c2.halted
                    stackPointer := c2.stackPointer
                    programCounter := c2.programCounter
                    memory := c2.memory } := by
    intro mask v hv
    simp only [Option.bind_eq_bind, Option.bind_eq_some] at hv
    obtain ⟨ca, hca, hv⟩ := hv
    obtain ⟨cb, hcb, hv⟩ := hv
    simp only [Option.pure_def, Option.some.injEq, Prod.mk.injEq] at hv
    have ea := CPU.write_frame _ _ _ _ hca
    have eb := CPU.call_frame _ _ _ hcb
    rw [← hv.2, eb, ea]
  by_cases hi : flags &&& enabled &&& 0b00011111 ≠ 0
  · rw [if_pos hi] at h
    by_cases hime : c.ime
    · rw [if_neg (by simp [hime])] at h
      by_cases h1 : flags &&& enabled &&& 0b00011111 &&& 0b00000001 = 1
      · rw [if_pos h1] at h; exact vector _ _ h
      · rw [if_neg h1] at h
        by_cases h2 : (flags &&& enabled &&& 0b00011111 &&& 0b00000010) >>> 1 = 1
        · rw [if_pos h2] at h; exact vector _ _ h
        · rw [if_neg h2] at h
          by_cases h3 : (flags &&& enabled &&& 0b00011111 &&& 0b00000100) >>> 2 = 1
          · rw [if_pos h3] at h; exact vector _ _ h
          · rw [if_neg h3] at h
            by_cases h4 : (flags &&& enabled &&& 0b00011111 &&& 0b00001000) >>> 3 = 1
            · rw [if_pos h4] at h; exact vector _ _ h
            · rw [if_neg h4] at h
              by_cases h5 : (flags &&& enabled &&& 0b00011111 &&& 0b00010000) >>> 4 = 1
              · rw [if_pos h5] at h; exact vector _ _ h
              · rw [if_neg h5] at h
                simp only [Option.pure_def, Option.some.injEq, Prod.mk.injEq] at h
                rw [← h.2]
    · rw [if_pos (by simp [hime])] at h
      simp only [Option.pure_def, Option.some.injEq, Prod.mk.injEq] at h
      rw [← h.2]
  · rw [if_neg hi] at h
    simp only [Option.pure_def, Option.some.injEq, Prod.mk.injEq] at h
    rw [← h.2]

/-- `handle_interrupts` pops exactly one entry off the EI queue when the
queue is non-empty, and touches the queue in no other way. -/
theorem CPU.handleInterrupts_queue (c : CPU) (n : Nat) (c2 : CPU)
    (h : c.handleInterrupts = some (n, c2)) :
    c2.eiQueue = match c.eiQueue with
      | [] => ([] : List (Option Bool))
      | _ :: rest => rest := by
  unfold CPU.handleInterrupts at h
  have main := CPU.interruptCheck_frame _ _ _ h
  have hq : c2.eiQueue = c.popEiQueue.eiQueue := by rw [main]
  rw [hq]
  unfold CPU.popEiQueue
  cases hqq : c.eiQueue with
  | nil => simp [hqq]
  | cons q0 rest => cases q0 <;> simp

end GBC

namespace GBC

/-! ## Claim C6 -/

/-- C6: EI appends `[None, Some(true)]` to the pending-IME queue, DI
resets the queue to `[Some(false)]`, the interrupt step pops exactly one
entry (applying a `Some` entry to IME), and therefore IME is still false
immediately after EI and true after the following NOP. -/
theorem claim6_ei_delay :
    (∀ c : CPU, Inst.ei.exec c =
        some { c with eiQueue := c.eiQueue ++ [none, some true] }) ∧
    (∀ c : CPU, Inst.di.exec c = some { c with eiQueue := [some false] }) ∧
    (∀ c : CPU, c.handleInterrupts = c.popEiQueue.interruptCheck) ∧
    (∀ c : CPU, c.popEiQueue.ime =
        (match c.eiQueue with
          | some b :: _ => b
          | _ => c.ime)) ∧
    (∀ (c : CPU) (n : Nat) (c2 : CPU), c.handleInterrupts = some (n, c2) →
      c2.eiQueue = (match c.eiQueue with
        | [] => ([] : List (Option Bool))
        | _ :: rest => rest)) ∧
    (((((CPU.new MemManager.new).bind (fun c => c.write 0x0100 0xFB)).bind
        (fun c => c.write 0x0101 0x00)).bind (CPU.stepN 1)).map CPU.ime =
      some false) ∧
    (((((CPU.new MemManager.new).bind (fun c => c.write 0x0100 0xFB)).bind
        (fun c => c.write 0x0101 0x00)).bind (CPU.stepN 2)).map CPU.ime =
      some true) := by
  refine ⟨fun c => rfl, fun c => rfl, fun c => rfl, ?_, CPU.handleInterrupts_queue,
    by decide, by decide⟩
  intro c
  unfold CPU.popEiQueue
  cases hqq : c.eiQueue with
  | nil => simp
  | cons q0 rest => cases q0 <;> simp

/-- Witness for `claim6_ei_delay`: the interrupt step on a concrete state
with queue `[None, Some true]` pops the `None`. -/
theorem claim6_ei_delay_witness :
    ∃ (n : Nat) (c2 : CPU),
      ({ cpu0 with eiQueue := [none, some true] } : CPU).handleInterrupts =
          some (n, c2) ∧
        c2.eiQueue = [some true] := by
  refine ⟨0, _, rfl, ?_⟩
  exact claim6_ei_delay.2.2.2.2.1 { cpu0 with eiQueue := [none, some true] } 0 _ rfl

/-! ## Claim C4 support -/

theorem CPU.read_io_high (c : CPU) (a : Nat) (h1 : 0xDFFF < a)
    (h2 : a ≠ OCPD_ADDRESS) (h3 : a ≠ BCPD_ADDRESS) :
    c.read a = some (c.memory.memory.get8 a) :=
  MemManager.read_plain_high c.memory a h1 h2 h3

theorem pending_bits :
    ∀ p < 32, p = 0 ∨ p &&& 1 = 1 ∨ (p &&& 2) >>> 1 = 1 ∨ (p &&& 4) >>> 2 = 1 ∨
      (p &&& 8) >>> 3 = 1 ∨ (p &&& 16) >>> 4 = 1 := by decide

theorem pending_lt (a b : Nat) : a &&& b &&& 0b00011111 < 32 :=
  Nat.lt_succ_of_le (Nat.and_le_right)

/-- With no pending interrupt, the interrupt check is a no-op costing 0. -/
theorem CPU.interruptCheck_pending0 (c : CPU)
    (h : c.memory.memory.get8 0xFF0F &&& c.memory.memory.get8 0xFFFF &&& 0b00011111 = 0) :
    c.interruptCheck = some (0, c) := by
  unfold CPU.interruptCheck
  rw [CPU.read_io_high c 0xFF0F (by norm_num) (by norm_num [OCPD_ADDRESS])
      (by norm_num [BCPD_ADDRESS])]
  rw [Option.bind_eq_bind, Option.some_bind]
  rw [CPU.read_io_high c 0xFFFF (by norm_num) (by norm_num [OCPD_ADDRESS])
      (by norm_num [BCPD_ADDRESS])]
  rw [Option.bind_eq_bind, Option.some_bind]
  rw [if_neg (by simpa using h)]
  rfl

/-- With a pending interrupt but IME off, the interrupt check only clears
`halted`, costing 0 extra m-cycles. -/
theorem CPU.interruptCheck_wake (c : CPU)
    (h : c.memory.memory.get8 0xFF0F &&& c.memory.memory.get8 0xFFFF &&& 0b00011111 ≠ 0)
    (hime : c.ime = false) :
    c.interruptCheck = some (0, { c with halted := false }) := by
  unfold CPU.interruptCheck
  rw [CPU.read_io_high c 0xFF0F (by norm_num) (by norm_num [OCPD_ADDRESS])
      (by norm_num [BCPD_ADDRESS])]
  rw [Option.bind_eq_bind, Option.some_bind]
  rw [CPU.read_io_high c 0xFFFF (by norm_num) (by norm_num [OCPD_ADDRESS])
      (by norm_num [BCPD_ADDRESS])]
  rw [Option.bind_eq_bind, Option.some_bind]
  rw [if_pos h, if_pos (by simp [hime])]
  rfl

/-- With a pending interrupt and IME on, a successful interrupt check
services the interrupt: it costs 5 m-cycles, clears IME, and leaves the
`halted` flag as it was (it does NOT clear it). -/
theorem CPU.interruptCheck_service (c : CPU) (n : Nat) (c2 : CPU)
    (h : c.memory.memory.get8 0xFF0F &&& c.memory.memory.get8 0xFFFF &&& 0b00011111 ≠ 0)
    (hime : c.ime = true)
    (hrun : c.interruptCheck = some (n, c2)) :
    n = 5 ∧ c2.halted = c.halted ∧ c2.ime = false := by
  unfold CPU.interruptCheck at hrun
  rw [CPU.read_io_high c 0xFF0F (by norm_num) (by norm_num [OCPD_ADDRESS])
      (by norm_num [BCPD_ADDRESS])] at hrun
  rw [Option.bind_eq_bind, Option.some_bind] at hrun
  rw [CPU.read_io_high c 0xFFFF (by norm_num) (by norm_num [OCPD_ADDRESS])
      (by norm_num [BCPD_ADDRESS])] at hrun
  rw [Option.bind_eq_bind, Option.some_bind] at hrun
  rw [if_pos h, if_neg (by simp [hime])] at hrun
  have vector : ∀ (mask v : Nat), ((do
      let cx ← CPU.write { c with ime := false } 0xFF0F
        (c.memory.memory.get8 0xFF0F &&& mask)
      let cx ← cx.call v
      pure (5, cx) : Option (Nat × CPU)) = some (n, c2)) →
      n = 5 ∧ c2.halted = c.halted ∧ c2.ime = false := by
    intro mask v hv
    simp only [Option.bind_eq_bind, Option.bind_eq_some] at hv
    obtain ⟨ca, hca, hv⟩ := hv
    obtain ⟨cb, hcb, hv⟩ := hv
    simp only [Option.pure_def, Option.some.injEq, Prod.mk.injEq] at hv
    have ea := CPU.write_frame _ _ _ _ hca
    have eb := CPU.call_frame _ _ _ hcb
    refine ⟨hv.1.symm, ?_, ?_⟩
    · rw [← hv.2, eb, ea]
    · rw [← hv.2, eb, ea]
  set p := c.memory.memory.get8 0xFF0F &&& c.memory.memory.get8 0xFFFF &&& 0b00011111
    with hp
  by_cases h1 : p &&& 0b00000001 = 1
  · rw [if_pos h1] at hrun; exact vector _ _ hrun
  · rw [if_neg h1] at hrun
    by_cases h2 : (p &&& 0b00000010) >>> 1 = 1
    · rw [if_pos h2] at hrun; exact vector _ _ hrun
    · rw [if_neg h2] at hrun
      by_cases h3 : (p &&& 0b00000100) >>> 2 = 1
      · rw [if_pos h3] at hrun; exact vector _ _ hrun
      · rw [if_neg h3] at hrun
        by_cases h4 : (p &&& 0b00001000) >>> 3 = 1
        · rw [if_pos h4] at hrun; exact vector _ _ hrun
        · rw [if_neg h4] at hrun
          by_cases h5 : (p &&& 0b00010000) >>> 4 = 1
          · rw [if_pos h5] at hrun; exact vector _ _ hrun
          · rcases pending_bits p (pending_lt _ _) with h0 | hb | hb | hb | hb | hb
            · exact absurd h0 h
            · exact absurd hb h1
            · exact absurd hb h2
            · exact absurd hb h3
            · exact absurd hb h4
            · exact absurd hb h5

/-- A halted step is the interrupt step alone, at a base cost of 1
m-cycle. -/
theorem CPU.step_halted (c : CPU) (h : c.halted = true) :
    c.step = c.handleInterrupts.bind (fun s => some ((1 + s.1) * 4, s.2)) := by
  unfold CPU.step
  rw [if_neg (by simp [h])]
  rfl

end GBC

namespace GBC

/-! ## Claim C4 -/

/-- C4 counterexample.  First conjunct: a halted CPU step with nothing
pending returns 4 dots (one m-cycle), not the claimed one dot.  Second
conjunct: with `IF = IE = 0x01` pending and IME on, the halted CPU
services the interrupt but the halted flag does NOT clear, contradicting
"at which point the halted flag clears". -/
theorem claim4_counterexample :
    (({ cpu0 with halted := true } : CPU).step.map Prod.fst = some 4 ∧
        (4 : Nat) ≠ 1) ∧
      (({ cpu0 with
            halted := true
            ime := true
            memory := { MemManager.new with
                          memory := [(0xFF0F, 0x01), (0xFFFF, 0x01)] } } : CPU).step.map
          (fun p => p.2.halted) = some true) := by
  exact ⟨⟨by decide, by decide⟩, by decide⟩

/-- C4 as amended.  After HALT executes, the CPU issues one m-cycle
(4 dots) per step and does nothing else until `IE & IF & 0x1F ≠ 0`.  At
that point: if IME is false, the halted flag clears and the interrupt is
not serviced (HALT ends); if IME is true, the interrupt is serviced
(24 dots, IME cleared) but the halted flag stays set.  The concrete
program `HALT; LD A, 0xFF` with `IF = IE = 0x01` still finishes with
`A = 0xFF`, since IME is false at wake. -/
theorem claim4_amended :
    (∀ c : CPU, c.halted = true → c.eiQueue = [] →
      c.memory.memory.get8 0xFF0F &&& c.memory.memory.get8 0xFFFF &&& 0b00011111 = 0 →
      c.step = some (4, c)) ∧
    (∀ c : CPU, c.halted = true → c.eiQueue = [] →
      c.memory.memory.get8 0xFF0F &&& c.memory.memory.get8 0xFFFF &&& 0b00011111 ≠ 0 →
      c.ime = false →
      c.step = some (4, { c with halted := false })) ∧
    (∀ (c : CPU) (d : Nat) (c2 : CPU), c.halted = true → c.eiQueue = [] →
      c.memory.memory.get8 0xFF0F &&& c.memory.memory.get8 0xFFFF &&& 0b00011111 ≠ 0 →
      c.ime = true → c.step = some (d, c2) →
      d = 24 ∧ c2.halted = true ∧ c2.ime = false) ∧
    ((((((((CPU.new MemManager.new).bind
        (fun c => c.write 0xFF0F 0x01)).bind
        (fun c => c.write 0xFFFF 0x01)).bind
        (fun c => c.write 0x0100 0x76)).bind
        (fun c => c.write 0x0101 0x3E)).bind
        (fun c => c.write 0x0102 0xFF)).bind
        (CPU.stepN 2)).map CPU.registerA = some 0xFF) := by
  have hpop : ∀ c : CPU, c.eiQueue = [] → c.popEiQueue = c := by
    intro c hq
    unfold CPU.popEiQueue
    rw [hq]
  refine ⟨?_, ?_, ?_, by decide⟩
  · intro c hh hq hp
    rw [CPU.step_halted c hh]
    unfold CPU.handleInterrupts
    rw [hpop c hq, CPU.interruptCheck_pending0 c hp]
    rfl
  · intro c hh hq hp hime
    rw [CPU.step_halted c hh]
    unfold CPU.handleInterrupts
    rw [hpop c hq, CPU.interruptCheck_wake c hp hime]
    rfl
  · intro c d c2 hh hq hp hime hrun
    rw [CPU.step_halted c hh] at hrun
    unfold CPU.handleInterrupts at hrun
    rw [hpop c hq] at hrun
    cases hic : c.interruptCheck with
    | none => rw [hic] at hrun; simp at hrun
    | some s =>
        rw [hic] at hrun
        simp only [Option.some_bind, Option.some.injEq, Prod.mk.injEq] at hrun
        obtain ⟨s1, s2⟩ := s
        obtain ⟨hn, hsvc⟩ := CPU.interruptCheck_service c s1 s2 hp hime hic
        subst hn
        constructor
        · omega
        · rw [← hrun.2]
          rw [hh] at hsvc
          exact hsvc

/-- Witness for `claim4_amended`: a concrete halted state with no pending
interrupt steps for 4 dots and stays put. -/
theorem claim4_amended_witness :
    ({ cpu0 with halted := true } : CPU).step =
      some (4, { cpu0 with halted := true }) :=
  claim4_amended.1 { cpu0 with halted := true } rfl rfl (by decide)

end GBC

namespace GBC

/-! ## Claim C8 -/

theorem and_two_pow_128 (x : Nat) : x &&& 128 = (x.testBit 7).toNat * 128 :=
  Nat.and_two_pow x 7

theorem and_two_pow_64 (x : Nat) : x &&& 64 = (x.testBit 6).toNat * 64 :=
  Nat.and_two_pow x 6

theorem and_two_pow_32 (x : Nat) : x &&& 32 = (x.testBit 5).toNat * 32 :=
  Nat.and_two_pow x 5

theorem and_two_pow_16 (x : Nat) : x &&& 16 = (x.testBit 4).toNat * 16 :=
  Nat.and_two_pow x 4

theorem updateFlagsAdd_bit7 (f a b : Nat) :
    updateFlagsAdd f a b &&& 0x80 = if (a + b) % 256 = 0 then 0x80 else 0 := by
  unfold updateFlagsAdd
  by_cases hZ : (a + b) % 256 = 0 <;>
    by_cases hC : a + b > 255 <;>
      by_cases hH : (a &&& 0x0F) + (b &&& 0x0F) > 0xF <;>
        simp [hZ, hC, hH, and_two_pow_128, Nat.testBit_lor, Nat.testBit_land,
          show Nat.testBit 191 7 = true from rfl,
          show Nat.testBit 127 7 = false from rfl,
          show Nat.testBit 128 7 = true from rfl,
          show Nat.testBit 16 7 = false from rfl,
          show Nat.testBit 32 7 = false from rfl,
          show Nat.testBit 239 7 = true from rfl,
          show Nat.testBit 223 7 = true from rfl]

theorem updateFlagsAdd_bit6 (f a b : Nat) :
    updateFlagsAdd f a b &&& 0x40 = 0 := by
  unfold updateFlagsAdd
  by_cases hZ : (a + b) % 256 = 0 <;>
    by_cases hC : a + b > 255 <;>
      by_cases hH : (a &&& 0x0F) + (b &&& 0x0F) > 0xF <;>
        simp [hZ, hC, hH, and_two_pow_64, Nat.testBit_lor, Nat.testBit_land,
          show Nat.testBit 191 6 = false from rfl,
          show Nat.testBit 127 6 = true from rfl,
          show Nat.testBit 128 6 = false from rfl,
          show Nat.testBit 16 6 = false from rfl,
          show Nat.testBit 32 6 = false from rfl,
          show Nat.testBit 239 6 = true from rfl,
          show Nat.testBit 223 6 = true from rfl]

theorem updateFlagsAdd_bit5 (f a b : Nat) :
    updateFlagsAdd f a b &&& 0x20 =
      if (a &&& 0xF) + (b &&& 0xF) > 0xF then 0x20 else 0 := by
  unfold updateFlagsAdd
  by_cases hZ : (a + b) % 256 = 0 <;>
    by_cases hC : a + b > 255 <;>
      by_cases hH : (a &&& 0x0F) + (b &&& 0x0F) > 0xF <;>
        simp [hZ, hC, hH, and_two_pow_32, Nat.testBit_lor, Nat.testBit_land,
          show Nat.testBit 191 5 = true from rfl,
          show Nat.testBit 127 5 = true from rfl,
          show Nat.testBit 128 5 = false from rfl,
          show Nat.testBit 16 5 = false from rfl,
          show Nat.testBit 32 5 = true from rfl,
          show Nat.testBit 239 5 = true from rfl,
          show Nat.testBit 223 5 = false from rfl]

theorem updateFlagsAdd_bit4 (f a b : Nat) :
    updateFlagsAdd f a b &&& 0x10 = if a + b > 0xFF then 0x10 else 0 := by
  unfold updateFlagsAdd
  by_cases hZ : (a + b) % 256 = 0 <;>
    by_cases hC : a + b > 255 <;>
      by_cases hH : (a &&& 0x0F) + (b &&& 0x0F) > 0xF <;>
        simp [hZ, hC, hH, and_two_pow_16, Nat.testBit_lor, Nat.testBit_land,
          show Nat.testBit 191 4 = true from rfl,
          show Nat.testBit 127 4 = true from rfl,
          show Nat.testBit 128 4 = false from rfl,
          show Nat.testBit 16 4 = true from rfl,
          show Nat.testBit 32 4 = false from rfl,
          show Nat.testBit 239 4 = false from rfl,
          show Nat.testBit 223 4 = true from rfl]

/-- C8: for every flags byte and operands, the 8-bit add flag helper sets
Z exactly when the wrapping sum is zero, clears N, sets H exactly when the
low nibbles overflow, and sets C exactly when the full sum overflows; and
the concrete program 0xC6 0xFF (ADD A,0xFF) starting from the post-boot
state (A = 0x11) ends with A = 0x10, C set, H set, Z clear, N clear. -/
theorem claim8_add_flags :
    (∀ f a b : Nat,
      (updateFlagsAdd f a b &&& 0x80 = if (a + b) % 256 = 0 then 0x80 else 0) ∧
      (updateFlagsAdd f a b &&& 0x40 = 0) ∧
      (updateFlagsAdd f a b &&& 0x20 =
        if (a &&& 0xF) + (b &&& 0xF) > 0xF then 0x20 else 0) ∧
      (updateFlagsAdd f a b &&& 0x10 = if a + b > 0xFF then 0x10 else 0)) ∧
    (decode 0xC6 = Inst.addAN) ∧
    (((((CPU.new MemManager.new).bind (fun c => c.write 0x0100 0xC6)).bind
        (fun c => c.write 0x0101 0xFF)).bind (CPU.stepN 1)).map
      (fun c => (c.registerA, c.registerF &&& 0x10, c.registerF &&& 0x20,
        c.registerF &&& 0x80, c.registerF &&& 0x40)) =
      some (0x10, 0x10, 0x20, 0, 0)) := by
  refine ⟨?_, rfl, by decide⟩
  intro f a b
  exact ⟨updateFlagsAdd_bit7 f a b, updateFlagsAdd_bit6 f a b,
    updateFlagsAdd_bit5 f a b, updateFlagsAdd_bit4 f a b⟩

end GBC

namespace GBC

/-! ## Claim C5: flag-register low-nibble invariant -/

theorem nib_lor0 (x y : Nat) (hx : x % 16 = 0) (hy : y % 16 = 0) :
    (x ||| y) % 16 = 0 := by
  rw [mod16_lor, hx, hy, Nat.zero_or]

theorem nib_land (x y : Nat) (hx : x % 16 = 0) : (x &&& y) % 16 = 0 := by
  rw [mod16_land, hx, Nat.zero_and]

theorem nib_land_right (x y : Nat) (hy : y % 16 = 0) : (x &&& y) % 16 = 0 := by
  rw [mod16_land, hy, Nat.and_zero]

theorem nib_ite (p : Prop) [Decidable p] (x y : Nat) (hx : x % 16 = 0)
    (hy : y % 16 = 0) : (if p then x else y) % 16 = 0 := by
  split <;> assumption

theorem updateFlagsAdd_nib (f a b : Nat) (hf : f % 16 = 0) :
    updateFlagsAdd f a b % 16 = 0 := by
  unfold updateFlagsAdd
  by_cases hZ : (a + b) % 256 = 0 <;>
    by_cases hC : a + b > 255 <;>
      by_cases hH : (a &&& 0x0F) + (b &&& 0x0F) > 0xF <;>
        simp [hZ, hC, hH, mod16_lor, mod16_land, hf, Nat.or_zero, Nat.zero_or,
          Nat.zero_and, Nat.and_zero]

theorem updateFlagsSub_nib (f a b : Nat) (hf : f % 16 = 0) :
    updateFlagsSub f a b % 16 = 0 := by
  unfold updateFlagsSub
  by_cases hZ : (a + b) % 256 = 0 <;>
    by_cases hC : CPU.negate b > a <;>
      by_cases hH : (CPU.negate b &&& 0x0F) > (a &&& 0x0F) <;>
        simp [hZ, hC, hH, mod16_lor, mod16_land, hf, Nat.or_zero, Nat.zero_or,
          Nat.zero_and, Nat.and_zero]

theorem updateHcFlagsAddU16_nib (f a b : Nat) (hf : f % 16 = 0) :
    updateHcFlagsAddU16 f a b % 16 = 0 := by
  unfold updateHcFlagsAddU16
  by_cases hC : 65535 - a < b <;>
    by_cases hH : (a &&& 0x0FFF) + (b &&& 0x0FFF) > 0x0FFF <;>
      simp [hC, hH, mod16_lor, mod16_land, hf, Nat.or_zero, Nat.zero_or,
        Nat.zero_and, Nat.and_zero]

theorem execDaa_nib (c : CPU) (hf : c.registerF % 16 = 0) :
    c.execDaa.registerF % 16 = 0 := by
  unfold CPU.execDaa
  by_cases h1 : (0b01000000 &&& c.registerF) >>> 6 = 0 <;>
    by_cases h2 : c.registerA > 0x99 <;>
      by_cases h3 : (c.registerA &&& 0x0F) > 0x09 <;>
        by_cases h4 : (0b00010000 &&& c.registerF) >>> 4 = 1 <;>
          by_cases h5 : (0b00100000 &&& c.registerF) >>> 5 = 1 <;>
            simp [h1, h2, h3, h4, h5] <;>
              (try split) <;>
                simp [mod16_lor, mod16_land, hf, Nat.or_zero, Nat.zero_or,
                  Nat.zero_and, Nat.and_zero]

theorem CPU.setRegister_f (c : CPU) (code v : Nat) :
    (c.setRegister code v).registerF = c.registerF := by
  unfold CPU.setRegister
  split_ifs <;> rfl

theorem CPU.setPair_f (c : CPU) (code hi lo : Nat) (h : code ≠ 3) :
    (c.setPair code hi lo).registerF = c.registerF := by
  unfold CPU.setPair
  split_ifs <;> simp_all

theorem CPU.write_f (c : CPU) (a d : Nat) (c2 : CPU)
    (h : c.write a d = some c2) : c2.registerF = c.registerF := by
  rw [CPU.write_frame c a d c2 h]

theorem CPU.writeU16_f (c : CPU) (a d : Nat) (c2 : CPU)
    (h : c.writeU16 a d = some c2) : c2.registerF = c.registerF := by
  rw [CPU.writeU16_frame c a d c2 h]

theorem CPU.call_f (c : CPU) (a : Nat) (c2 : CPU)
    (h : c.call a = some c2) : c2.registerF = c.registerF := by
  rw [CPU.call_frame c a c2 h]

theorem CPU.readOperand_f (c : CPU) (op : Operand) (r : Option Nat × CPU)
    (h : c.readOperand op = some r) : r.2.registerF = c.registerF := by
  cases op with
  | register n =>
      simp only [CPU.readOperand, Option.some.injEq] at h
      rw [← h]
  | indirect a =>
      simp only [CPU.readOperand, Option.map_eq_some'] at h
      obtain ⟨v, -, h⟩ := h
      rw [← h]
  | immediate =>
      simp only [CPU.readOperand, Option.map_eq_some'] at h
      obtain ⟨v, -, h⟩ := h
      rw [← h]

theorem CPU.writeOperand_f (c : CPU) (op : Operand) (d : Nat) (c2 : CPU)
    (h : c.writeOperand op d = some c2) : c2.registerF = c.registerF := by
  cases op with
  | register n =>
      simp only [CPU.writeOperand, Option.some.injEq] at h
      rw [← h, CPU.setRegister_f]
  | indirect a => exact CPU.write_f _ _ _ _ h
  | immediate =>
      simp only [CPU.writeOperand, Option.some.injEq] at h
      rw [← h]

theorem CPU.readOperandU16_f (c : CPU) (op : OperandU16) (r : Option Nat × CPU)
    (h : c.readOperandU16 op = some r) : r.2.registerF = c.registerF := by
  cases op with
  | registerPair n =>
      simp only [CPU.readOperandU16, Option.some.injEq] at h
      rw [← h]
  | immediateU16 =>
      simp only [CPU.readOperandU16, Option.map_eq_some'] at h
      obtain ⟨v, -, h⟩ := h
      rw [← h]

theorem CPU.push_f (c : CPU) (op : OperandU16) (c2 : CPU)
    (h : c.push op = some c2) : c2.registerF = c.registerF := by
  unfold CPU.push at h
  simp only [Option.bind_eq_bind, Option.bind_eq_some] at h
  obtain ⟨r, hr, h⟩ := h
  have hrf := CPU.readOperandU16_f c op r hr
  cases hv : r.1 with
  | some source =>
      rw [hv] at h
      simp only [Option.bind_eq_bind, Option.bind_eq_some] at h
      obtain ⟨ca, hca, h⟩ := h
      simp only [Option.pure_def, Option.some.injEq] at h
      have := CPU.writeU16_f _ _ _ _ hca
      rw [← h]
      simp only []
      rw [this, hrf]
  | none =>
      rw [hv] at h
      simp only [Option.pure_def, Option.some.injEq] at h
      rw [← h, hrf]

theorem CPU.jr_f (c : CPU) (c2 : CPU) (h : c.jr = some c2) :
    c2.registerF = c.registerF := by
  unfold CPU.jr at h
  simp only [Option.bind_eq_bind, Option.bind_eq_some] at h
  obtain ⟨r, hr, h⟩ := h
  obtain ⟨v, -, h⟩ := h
  simp only [Option.pure_def, Option.some.injEq] at h
  rw [← h]
  exact CPU.readOperand_f c .immediate r hr

theorem CPU.adc_nib (c : CPU) (op : Operand) (c2 : CPU)
    (h : c.adc op = some c2) (hf : c.registerF % 16 = 0) :
    c2.registerF % 16 = 0 := by
  unfold CPU.adc at h
  simp only [Option.bind_eq_bind, Option.bind_eq_some] at h
  obtain ⟨r, hr, h⟩ := h
  have hrf := CPU.readOperand_f c op r hr
  cases hv : r.1 with
  | none =>
      rw [hv] at h
      simp only [Option.pure_def, Option.some.injEq] at h
      rw [← h, hrf]; exact hf
  | some source =>
      rw [hv] at h
      simp only [Option.pure_def, Option.some.injEq] at h
      rw [← h]
      have hf1 : updateFlagsAdd r.2.registerF r.2.registerA source % 16 = 0 :=
        updateFlagsAdd_nib _ _ _ (by rw [hrf]; exact hf)
      exact nib_lor0 _ _ (updateFlagsAdd_nib _ _ _ hf1) (nib_land _ _ hf1)

theorem CPU.sbc_nib (c : CPU) (op : Operand) (c2 : CPU)
    (h : c.sbc op = some c2) (hf : c.registerF % 16 = 0) :
    c2.registerF % 16 = 0 := by
  unfold CPU.sbc at h
  simp only [Option.bind_eq_bind, Option.bind_eq_some] at h
  obtain ⟨r, hr, h⟩ := h
  have hrf := CPU.readOperand_f c op r hr
  cases hv : r.1 with
  | none =>
      rw [hv] at h
      simp only [Option.pure_def, Option.some.injEq] at h
      rw [← h, hrf]; exact hf
  | some source0 =>
      rw [hv] at h
      simp only [Option.pure_def, Option.some.injEq] at h
      rw [← h]
      have hf1 : updateFlagsSub r.2.registerF r.2.registerA
          (CPU.negate source0) % 16 = 0 :=
        updateFlagsSub_nib _ _ _ (by rw [hrf]; exact hf)
      exact nib_lor0 _ _ (updateFlagsSub_nib _ _ _ hf1) (nib_land _ _ hf1)

theorem CPU.rlc_nib (c : CPU) (op : Operand) (c2 : CPU)
    (h : c.rlc op = some c2) (hf : c.registerF % 16 = 0) :
    c2.registerF % 16 = 0 := by
  unfold CPU.rlc at h
  simp only [Option.bind_eq_bind, Option.bind_eq_some] at h
  obtain ⟨r, hr, h⟩ := h
  have hrf := CPU.readOperand_f c op r hr
  cases hv : r.1 with
  | none =>
      rw [hv] at h
      simp only [Option.pure_def, Option.some.injEq] at h
      rw [← h, hrf]; exact hf
  | some source =>
      rw [hv] at h
      simp only [Option.bind_eq_bind, Option.bind_eq_some, Option.pure_def,
        Option.some.injEq] at h
      obtain ⟨ca, hca, r2, hr2, v, hv2, h⟩ := h
      rw [← h]
      exact nib_lor0 _ _ (nib_lor0 _ _ (by simp) (mod16_shiftl4 _))
        (mod16_shiftl7 _)

theorem CPU.rl_nib (c : CPU) (op : Operand) (cb : Nat) (c2 : CPU)
    (h : c.rl op cb = some c2) (hf : c.registerF % 16 = 0) :
    c2.registerF % 16 = 0 := by
  unfold CPU.rl at h
  simp only [Option.bind_eq_bind, Option.bind_eq_some] at h
  obtain ⟨r, hr, h⟩ := h
  have hrf := CPU.readOperand_f c op r hr
  cases hv : r.1 with
  | none =>
      rw [hv] at h
      simp only [Option.pure_def, Option.some.injEq] at h
      rw [← h, hrf]; exact hf
  | some source =>
      rw [hv] at h
      simp only [Option.bind_eq_bind, Option.bind_eq_some, Option.pure_def,
        Option.some.injEq] at h
      obtain ⟨ca, hca, r2, hr2, v, hv2, h⟩ := h
      rw [← h]
      exact nib_lor0 _ _ (nib_lor0 _ _ (by simp) (mod16_shiftl4 _))
        (mod16_shiftl7 _)

theorem CPU.rrc_nib (c : CPU) (op : Operand) (c2 : CPU)
    (h : c.rrc op = some c2) (hf : c.registerF % 16 = 0) :
    c2.registerF % 16 = 0 := by
  unfold CPU.rrc at h
  simp only [Option.bind_eq_bind, Option.bind_eq_some] at h
  obtain ⟨r, hr, h⟩ := h
  have hrf := CPU.readOperand_f c op r hr
  cases hv : r.1 with
  | none =>
      rw [hv] at h
      simp only [Option.pure_def, Option.some.injEq] at h
      rw [← h, hrf]; exact hf
  | some source =>
      rw [hv] at h
      simp only [Option.bind_eq_bind, Option.bind_eq_some, Option.pure_def,
        Option.some.injEq] at h
      obtain ⟨ca, hca, r2, hr2, v, hv2, h⟩ := h
      rw [← h]
      exact nib_lor0 _ _ (nib_lor0 _ _ (by simp) (mod16_shiftl4 _))
        (mod16_shiftl7 _)

theorem CPU.rr_nib (c : CPU) (op : Operand) (cb : Nat) (c2 : CPU)
    (h : c.rr op cb = some c2) (hf : c.registerF % 16 = 0) :
    c2.registerF % 16 = 0 := by
  unfold CPU.rr at h
  simp only [Option.bind_eq_bind, Option.bind_eq_some] at h
  obtain ⟨r, hr, h⟩ := h
  have hrf := CPU.readOperand_f c op r hr
  cases hv : r.1 with
  | none =>
      rw [hv] at h
      simp only [Option.pure_def, Option.some.injEq] at h
      rw [← h, hrf]; exact hf
  | some source =>
      rw [hv] at h
      simp only [Option.bind_eq_bind, Option.bind_eq_some, Option.pure_def,
        Option.some.injEq] at h
      obtain ⟨ca, hca, r2, hr2, v, hv2, h⟩ := h
      rw [← h]
      exact nib_lor0 _ _ (nib_lor0 _ _ (by simp) (mod16_shiftl4 _))
        (mod16_shiftl7 _)

theorem CPU.sla_nib (c : CPU) (op : Operand) (c2 : CPU)
    (h : c.sla op = some c2) (hf : c.registerF % 16 = 0) :
    c2.registerF % 16 = 0 := by
  unfold CPU.sla at h
  simp only [Option.bind_eq_bind, Option.bind_eq_some] at h
  obtain ⟨r, hr, h⟩ := h
  have hrf := CPU.readOperand_f c op r hr
  cases hv : r.1 with
  | none =>
      rw [hv] at h
      simp only [Option.pure_def, Option.some.injEq] at h
      rw [← h, hrf]; exact hf
  | some source =>
      rw [hv] at h
      simp only [Option.bind_eq_bind, Option.bind_eq_some, Option.pure_def,
        Option.some.injEq] at h
      obtain ⟨ca, hca, r2, hr2, v, hv2, h⟩ := h
      rw [← h]
      exact nib_lor0 _ _ (nib_lor0 _ _ (by simp) (mod16_shiftl4 _))
        (mod16_shiftl7 _)

theorem CPU.sra_nib (c : CPU) (op : Operand) (c2 : CPU)
    (h : c.sra op = some c2) (hf : c.registerF % 16 = 0) :
    c2.registerF % 16 = 0 := by
  unfold CPU.sra at h
  simp only [Option.bind_eq_bind, Option.bind_eq_some] at h
  obtain ⟨r, hr, h⟩ := h
  have hrf := CPU.readOperand_f c op r hr
  cases hv : r.1 with
  | none =>
      rw [hv] at h
      simp only [Option.pure_def, Option.some.injEq] at h
      rw [← h, hrf]; exact hf
  | some source =>
      rw [hv] at h
      simp only [Option.bind_eq_bind, Option.bind_eq_some, Option.pure_def,
        Option.some.injEq] at h
      obtain ⟨ca, hca, r2, hr2, v, hv2, h⟩ := h
      rw [← h]
      exact nib_lor0 _ _ (nib_lor0 _ _ (by simp) (mod16_shiftl4 _))
        (mod16_shiftl7 _)

theorem CPU.srl_nib (c : CPU) (op : Operand) (c2 : CPU)
    (h : c.srl op = some c2) (hf : c.registerF % 16 = 0) :
    c2.registerF % 16 = 0 := by
  unfold CPU.srl at h
  simp only [Option.bind_eq_bind, Option.bind_eq_some] at h
  obtain ⟨r, hr, h⟩ := h
  have hrf := CPU.readOperand_f c op r hr
  cases hv : r.1 with
  | none =>
      rw [hv] at h
      simp only [Option.pure_def, Option.some.injEq] at h
      rw [← h, hrf]; exact hf
  | some source =>
      rw [hv] at h
      simp only [Option.bind_eq_bind, Option.bind_eq_some, Option.pure_def,
        Option.some.injEq] at h
      obtain ⟨ca, hca, r2, hr2, v, hv2, h⟩ := h
      rw [← h]
      exact nib_lor0 _ _ (nib_lor0 _ _ (by simp) (mod16_shiftl4 _))
        (mod16_shiftl7 _)

theorem CPU.swap_nib (c : CPU) (op : Operand) (c2 : CPU)
    (h : c.swap op = some c2) (hf : c.registerF % 16 = 0) :
    c2.registerF % 16 = 0 := by
  unfold CPU.swap at h
  simp only [Option.bind_eq_bind, Option.bind_eq_some] at h
  obtain ⟨r, hr, h⟩ := h
  have hrf := CPU.readOperand_f c op r hr
  cases hv : r.1 with
  | none =>
      rw [hv] at h
      simp only [Option.pure_def, Option.some.injEq] at h
      rw [← h, hrf]; exact hf
  | some source =>
      rw [hv] at h
      simp only [Option.bind_eq_bind, Option.bind_eq_some, Option.pure_def,
        Option.some.injEq] at h
      obtain ⟨ca, hca, h⟩ := h
      rw [← h]
      exact nib_lor0 _ _ (by simp) (mod16_shiftl7 _)

theorem CPU.bitTest_nib (c : CPU) (n : Nat) (op : Operand) (c2 : CPU)
    (h : c.bitTest n op = some c2) (hf : c.registerF % 16 = 0) :
    c2.registerF % 16 = 0 := by
  unfold CPU.bitTest at h
  simp only [Option.bind_eq_bind, Option.bind_eq_some] at h
  obtain ⟨r, hr, h⟩ := h
  have hrf := CPU.readOperand_f c op r hr
  cases hv : r.1 with
  | none =>
      rw [hv] at h
      simp only [Option.pure_def, Option.some.injEq] at h
      rw [← h, hrf]; exact hf
  | some source =>
      rw [hv] at h
      simp only [Option.pure_def, Option.some.injEq] at h
      rw [← h]
      exact nib_lor0 _ _ (nib_lor0 _ _ (nib_land _ _ (by rw [hrf]; exact hf))
        (by norm_num)) (mod16_shiftl7 _)

theorem CPU.res_f (c : CPU) (n : Nat) (op : Operand) (c2 : CPU)
    (h : c.res n op = some c2) : c2.registerF = c.registerF := by
  unfold CPU.res at h
  simp only [Option.bind_eq_bind, Option.bind_eq_some] at h
  obtain ⟨r, hr, h⟩ := h
  have hrf := CPU.readOperand_f c op r hr
  cases hv : r.1 with
  | none =>
      rw [hv] at h
      simp only [Option.pure_def, Option.some.injEq] at h
      rw [← h, hrf]
  | some source =>
      rw [hv] at h
      rw [CPU.writeOperand_f _ _ _ _ h, hrf]

theorem CPU.setBit_f (c : CPU) (n : Nat) (op : Operand) (c2 : CPU)
    (h : c.setBit n op = some c2) : c2.registerF = c.registerF := by
  unfold CPU.setBit at h
  simp only [Option.bind_eq_bind, Option.bind_eq_some] at h
  obtain ⟨r, hr, h⟩ := h
  have hrf := CPU.readOperand_f c op r hr
  cases hv : r.1 with
  | none =>
      rw [hv] at h
      simp only [Option.pure_def, Option.some.injEq] at h
      rw [← h, hrf]
  | some source =>
      rw [hv] at h
      rw [CPU.writeOperand_f _ _ _ _ h, hrf]

theorem cb_bind_nib (o : Option CPU) (k : Nat) (c2 : CPU)
    (h : (o >>= fun c => pure { c with changedCycles := some k }) = some c2)
    (ho : ∀ cm, o = some cm → cm.registerF % 16 = 0) :
    c2.registerF % 16 = 0 := by
  simp only [Option.bind_eq_bind, Option.bind_eq_some, Option.pure_def,
    Option.some.injEq] at h
  obtain ⟨cm, hcm, h⟩ := h
  rw [← h]
  show cm.registerF % 16 = 0
  exact ho cm hcm

theorem CPU.execCb_nib (c : CPU) (c2 : CPU) (h : c.execCb = some c2)
    (hf : c.registerF % 16 = 0) : c2.registerF % 16 = 0 := by
  unfold CPU.execCb at h
  simp only [Option.bind_eq_bind, Option.bind_eq_some] at h
  obtain ⟨arg, harg, h⟩ := h
  by_cases hA0 : (arg &&& 240) >>> 4 = 0
  · rw [if_pos hA0] at h
    by_cases h6 : arg &&& 15 = 6
    · rw [if_pos h6] at h
      exact cb_bind_nib _ _ _ h (fun cm hcm => CPU.rlc_nib _ _ _ hcm hf)
    · rw [if_neg h6] at h
      by_cases hE : arg &&& 15 = 14
      · rw [if_pos hE] at h
        exact cb_bind_nib _ _ _ h (fun cm hcm => CPU.rrc_nib _ _ _ hcm hf)
      · rw [if_neg hE] at h
        by_cases h7 : arg &&& 15 ≤ 7
        · rw [if_pos h7] at h; exact CPU.rlc_nib _ _ _ h hf
        · rw [if_neg h7] at h; exact CPU.rrc_nib _ _ _ h hf
  · rw [if_neg hA0] at h
    by_cases hA1 : (arg &&& 240) >>> 4 = 1
    · rw [if_pos hA1] at h
      by_cases h6 : arg &&& 15 = 6
      · rw [if_pos h6] at h
        exact cb_bind_nib _ _ _ h (fun cm hcm => CPU.rl_nib _ _ _ _ hcm hf)
      · rw [if_neg h6] at h
        by_cases hE : arg &&& 15 = 14
        · rw [if_pos hE] at h
          exact cb_bind_nib _ _ _ h (fun cm hcm => CPU.rr_nib _ _ _ _ hcm hf)
        · rw [if_neg hE] at h
          by_cases h7 : arg &&& 15 ≤ 7
          · rw [if_pos h7] at h; exact CPU.rl_nib _ _ _ _ h hf
          · rw [if_neg h7] at h; exact CPU.rr_nib _ _ _ _ h hf
    · rw [if_neg hA1] at h
      by_cases hA2 : (arg &&& 240) >>> 4 = 2
      · rw [if_pos hA2] at h
        by_cases h6 : arg &&& 15 = 6
        · rw [if_pos h6] at h
          exact cb_bind_nib _ _ _ h (fun cm hcm => CPU.sla_nib _ _ _ hcm hf)
        · rw [if_neg h6] at h
          by_cases hE : arg &&& 15 = 14
          · rw [if_pos hE] at h
            exact cb_bind_nib _ _ _ h (fun cm hcm => CPU.sra_nib _ _ _ hcm hf)
          · rw [if_neg hE] at h
            by_cases h7 : arg &&& 15 ≤ 7
            · rw [if_pos h7] at h; exact CPU.sla_nib _ _ _ h hf
            · rw [if_neg h7] at h; exact CPU.sra_nib _ _ _ h hf
      · rw [if_neg hA2] at h
        by_cases hA3 : (arg &&& 240) >>> 4 = 3
        · rw [if_pos hA3] at h
          by_cases h6 : arg &&& 15 = 6
          · rw [if_pos h6] at h
            exact cb_bind_nib _ _ _ h (fun cm hcm => CPU.swap_nib _ _ _ hcm hf)
          · rw [if_neg h6] at h
            by_cases hE : arg &&& 15 = 14
            · rw [if_pos hE] at h
              exact cb_bind_nib _ _ _ h (fun cm hcm => CPU.srl_nib _ _ _ hcm hf)
            · rw [if_neg hE] at h
              by_cases h7 : arg &&& 15 ≤ 7
              · rw [if_pos h7] at h; exact CPU.swap_nib _ _ _ h hf
              · rw [if_neg h7] at h; exact CPU.srl_nib _ _ _ h hf
        · rw [if_neg hA3] at h
          by_cases hA7 : (arg &&& 240) >>> 4 ≤ 7
          · rw [if_pos hA7] at h
            by_cases h6E : arg &&& 15 = 6 ∨ arg &&& 15 = 14
            · rw [if_pos h6E] at h
              exact cb_bind_nib _ _ _ h
                (fun cm hcm => CPU.bitTest_nib _ _ _ _ hcm hf)
            · rw [if_neg h6E] at h
              exact CPU.bitTest_nib _ _ _ _ h hf
          · rw [if_neg hA7] at h
            by_cases hAB : (arg &&& 240) >>> 4 ≤ 11
            · rw [if_pos hAB] at h
              by_cases h6E : arg &&& 15 = 6 ∨ arg &&& 15 = 14
              · rw [if_pos h6E] at h
                refine cb_bind_nib _ _ _ h (fun cm hcm => ?_)
                rw [CPU.res_f _ _ _ _ hcm]; exact hf
              · rw [if_neg h6E] at h
                rw [CPU.res_f _ _ _ _ h]; exact hf
            · rw [if_neg hAB] at h
              by_cases h6E : arg &&& 15 = 6 ∨ arg &&& 15 = 14
              · rw [if_pos h6E] at h
                refine cb_bind_nib _ _ _ h (fun cm hcm => ?_)
                rw [CPU.setBit_f _ _ _ _ hcm]; exact hf
              · rw [if_neg h6E] at h
                rw [CPU.setBit_f _ _ _ _ h]; exact hf

end GBC

namespace GBC

theorem some_nib (x c2 : CPU) (h : some x = some c2)
    (hx : x.registerF % 16 = 0) : c2.registerF % 16 = 0 := by
  cases h; exact hx

theorem bind_nib {A : Type} (o : Option A) (f : A → Option CPU) (c2 : CPU)
    (h : (o >>= f) = some c2)
    (ho : ∀ a, o = some a → f a = some c2 → c2.registerF % 16 = 0) :
    c2.registerF % 16 = 0 := by
  simp only [Option.bind_eq_bind, Option.bind_eq_some] at h
  obtain ⟨a, ha, hfa⟩ := h
  exact ho a ha hfa

theorem CPU.popEiQueue_f (c : CPU) : c.popEiQueue.registerF = c.registerF := by
  unfold CPU.popEiQueue
  cases hq : c.eiQueue with
  | nil => rfl
  | cons q rest => cases q <;> rfl

theorem CPU.handleInterrupts_f (c : CPU) (m : Nat) (y : CPU)
    (h : c.handleInterrupts = some (m, y)) : y.registerF = c.registerF := by
  unfold CPU.handleInterrupts at h
  have e := CPU.interruptCheck_frame _ _ _ h
  rw [e]
  show c.popEiQueue.registerF = c.registerF
  exact CPU.popEiQueue_f c

theorem CPU.pop_f (c : CPU) (d : Nat) (cp : CPU) (hd : d ≠ 3)
    (h : c.pop (.registerPair d) = some cp) : cp.registerF = c.registerF := by
  unfold CPU.pop at h
  simp only [Option.bind_eq_bind, Option.bind_eq_some, Option.pure_def,
    Option.some.injEq] at h
  obtain ⟨w, hw, h⟩ := h
  rw [← h]
  show (CPU.writeOperandU16 c (.registerPair d) w).registerF = c.registerF
  simp only [CPU.writeOperandU16]
  exact CPU.setPair_f _ _ _ _ hd

theorem Inst.exec_nib (i : Inst) (c c2 : CPU) (hs : i.fSafe = true)
    (h : i.exec c = some c2) (hf : c.registerF % 16 = 0) :
    c2.registerF % 16 = 0 := by
  cases i with
  | ldSPHL =>
      simp only [Inst.exec] at h
      exact some_nib _ _ h hf
  | incSP =>
      simp only [Inst.exec] at h
      exact some_nib _ _ h hf
  | decSP =>
      simp only [Inst.exec] at h
      exact some_nib _ _ h hf
  | jpHL =>
      simp only [Inst.exec] at h
      exact some_nib _ _ h hf
  | nop =>
      simp only [Inst.exec] at h
      exact some_nib _ _ h hf
  | halt =>
      simp only [Inst.exec] at h
      exact some_nib _ _ h hf
  | di =>
      simp only [Inst.exec] at h
      exact some_nib _ _ h hf
  | ei =>
      simp only [Inst.exec] at h
      exact some_nib _ _ h hf
  | unmapped =>
      simp only [Inst.exec] at h
      exact some_nib _ _ h hf
  | daa =>
      simp only [Inst.exec] at h
      exact some_nib _ _ h (execDaa_nib c hf)
  | cpl =>
      simp only [Inst.exec] at h
      exact some_nib _ _ h (nib_lor0 _ _ hf (by norm_num))
  | ccf =>
      simp only [Inst.exec] at h
      exact some_nib _ _ h (nib_lor0 _ _ (nib_land _ _ hf)
        (by rw [mod16_xor, mod16_mod256, mod16_lor, hf]; decide))
  | scf =>
      simp only [Inst.exec] at h
      exact some_nib _ _ h (nib_lor0 _ _ (nib_land _ _ hf) (by norm_num))
  | ldRR dest src =>
      simp only [Inst.exec] at h
      cases hr : c.getRegisterValue src with
      | none =>
          rw [hr] at h
          simp only [Option.some.injEq] at h
          rw [← h]; exact hf
      | some v =>
          rw [hr] at h
          simp only [Option.some.injEq] at h
          rw [← h, CPU.setRegister_f]; exact hf
  | ldHLR src =>
      simp only [Inst.exec] at h
      cases hr : c.getRegisterValue src with
      | none =>
          rw [hr] at h
          simp only [Option.some.injEq] at h
          rw [← h]; exact hf
      | some v =>
          rw [hr] at h
          rw [CPU.write_f _ _ _ _ h]; exact hf
  | ldRN dest =>
      simp only [Inst.exec] at h
      refine bind_nib _ _ _ h (fun v hv hp => some_nib _ _ hp ?_)
      rw [CPU.setRegister_f]; exact hf
  | ldRHL dest =>
      simp only [Inst.exec] at h
      refine bind_nib _ _ _ h (fun v hv hp => some_nib _ _ hp ?_)
      rw [CPU.setRegister_f]; exact hf
  | ldABC =>
      simp only [Inst.exec] at h
      exact bind_nib _ _ _ h (fun v hv hp => some_nib _ _ hp hf)
  | ldADE =>
      simp only [Inst.exec] at h
      exact bind_nib _ _ _ h (fun v hv hp => some_nib _ _ hp hf)
  | ldhAC =>
      simp only [Inst.exec] at h
      exact bind_nib _ _ _ h (fun v hv hp => some_nib _ _ hp hf)
  | ldiAHL =>
      simp only [Inst.exec] at h
      exact bind_nib _ _ _ h (fun v hv hp => some_nib _ _ hp hf)
  | lddAHL =>
      simp only [Inst.exec] at h
      exact bind_nib _ _ _ h (fun v hv hp => some_nib _ _ hp hf)
  | ldSPNN =>
      simp only [Inst.exec] at h
      exact bind_nib _ _ _ h (fun v hv hp => some_nib _ _ hp hf)
  | ldhAN =>
      simp only [Inst.exec] at h
      refine bind_nib _ _ _ h (fun v1 h1 hp => ?_)
      exact bind_nib _ _ _ hp (fun v2 h2 hq => some_nib _ _ hq hf)
  | ldANN =>
      simp only [Inst.exec] at h
      refine bind_nib _ _ _ h (fun v1 h1 hp => ?_)
      refine bind_nib _ _ _ hp (fun v2 h2 hq => ?_)
      exact bind_nib _ _ _ hq (fun v3 h3 hz => some_nib _ _ hz hf)
  | ldNNA =>
      simp only [Inst.exec] at h
      refine bind_nib _ _ _ h (fun v1 h1 hp => ?_)
      refine bind_nib _ _ _ hp (fun v2 h2 hw => ?_)
      rw [CPU.write_f _ _ _ _ hw]; exact hf
  | ldBCA =>
      simp only [Inst.exec] at h
      rw [CPU.write_f _ _ _ _ h]; exact hf
  | ldDEA =>
      simp only [Inst.exec] at h
      rw [CPU.write_f _ _ _ _ h]; exact hf
  | ldhCA =>
      simp only [Inst.exec] at h
      rw [CPU.write_f _ _ _ _ h]; exact hf
  | ldhNA =>
      simp only [Inst.exec] at h
      refine bind_nib _ _ _ h (fun v hv hw => ?_)
      rw [CPU.write_f _ _ _ _ hw]; exact hf
  | ldiHLA =>
      simp only [Inst.exec] at h
      refine bind_nib _ _ _ h (fun cw hw hp => some_nib _ _ hp ?_)
      show cw.registerF % 16 = 0
      rw [CPU.write_f _ _ _ _ hw]; exact hf
  | lddHLA =>
      simp only [Inst.exec] at h
      refine bind_nib _ _ _ h (fun cw hw hp => some_nib _ _ hp ?_)
      show cw.registerF % 16 = 0
      rw [CPU.write_f _ _ _ _ hw]; exact hf
  | ldHLN =>
      simp only [Inst.exec] at h
      refine bind_nib _ _ _ h (fun v hv hw => ?_)
      rw [CPU.write_f _ _ _ _ hw]; exact hf
  | ldNNSP =>
      simp only [Inst.exec] at h
      refine bind_nib _ _ _ h (fun v hv hw => ?_)
      rw [CPU.writeU16_f _ _ _ _ hw]; exact hf
  | ldRRNN dest =>
      simp only [Inst.exec] at h
      simp only [Inst.fSafe] at hs
      have hd := of_decide_eq_true hs
      refine bind_nib _ _ _ h (fun w hw hp => some_nib _ _ hp ?_)
      rw [CPU.setPair_f _ _ _ _ hd]; exact hf
  | pushRR src =>
      simp only [Inst.exec] at h
      rw [CPU.push_f _ _ _ h]; exact hf
  | popRR dest =>
      simp only [Inst.exec] at h
      refine bind_nib _ _ _ h (fun cp hcp hp => ?_)
      by_cases hd : dest = 3
      · rw [if_pos hd] at hp
        exact some_nib _ _ hp (nib_land_right _ _ (by norm_num))
      · rw [if_neg hd] at hp
        refine some_nib _ _ hp ?_
        rw [CPU.pop_f _ _ _ hd hcp]; exact hf
  | addAR r =>
      simp only [Inst.exec] at h
      cases hr : c.getRegisterValue r with
      | none =>
          rw [hr] at h
          simp only [Option.some.injEq] at h
          rw [← h]; exact hf
      | some v =>
          rw [hr] at h
          simp only [Option.some.injEq] at h
          rw [← h]
          exact updateFlagsAdd_nib _ _ _ hf
  | addAN =>
      simp only [Inst.exec] at h
      exact bind_nib _ _ _ h (fun v hv hp => some_nib _ _ hp (updateFlagsAdd_nib _ _ _ hf))
  | addAHL =>
      simp only [Inst.exec] at h
      exact bind_nib _ _ _ h (fun v hv hp => some_nib _ _ hp (updateFlagsAdd_nib _ _ _ hf))
  | adcAR r =>
      simp only [Inst.exec] at h
      exact CPU.adc_nib _ _ _ h hf
  | adcAN =>
      simp only [Inst.exec] at h
      exact CPU.adc_nib _ _ _ h hf
  | adcAHL =>
      simp only [Inst.exec] at h
      exact CPU.adc_nib _ _ _ h hf
  | subAR r =>
      simp only [Inst.exec] at h
      cases hr : c.getRegisterValue r with
      | none =>
          rw [hr] at h
          simp only [Option.some.injEq] at h
          rw [← h]; exact hf
      | some v =>
          rw [hr] at h
          simp only [Option.some.injEq] at h
          rw [← h]
          exact updateFlagsSub_nib _ _ _ hf
  | subAN =>
      simp only [Inst.exec] at h
      exact bind_nib _ _ _ h (fun v hv hp => some_nib _ _ hp (updateFlagsSub_nib _ _ _ hf))
  | subAHL =>
      simp only [Inst.exec] at h
      exact bind_nib _ _ _ h (fun v hv hp => some_nib _ _ hp (updateFlagsSub_nib _ _ _ hf))
  | sbcAR r =>
      simp only [Inst.exec] at h
      exact CPU.sbc_nib _ _ _ h hf
  | sbcAN =>
      simp only [Inst.exec] at h
      exact CPU.sbc_nib _ _ _ h hf
  | sbcAHL =>
      simp only [Inst.exec] at h
      exact CPU.sbc_nib _ _ _ h hf
  | andAR r =>
      simp only [Inst.exec] at h
      cases hr : c.getRegisterValue r with
      | none =>
          rw [hr] at h
          simp only [Option.some.injEq] at h
          rw [← h]; exact hf
      | some v =>
          rw [hr] at h
          simp only [Option.some.injEq] at h
          rw [← h]
          exact nib_lor0 _ _ (by norm_num) (mod16_shiftl7 _)
  | andAN =>
      simp only [Inst.exec] at h
      exact bind_nib _ _ _ h (fun v hv hp => some_nib _ _ hp (nib_lor0 _ _ (by norm_num) (mod16_shiftl7 _)))
  | andAHL =>
      simp only [Inst.exec] at h
      exact bind_nib _ _ _ h (fun v hv hp => some_nib _ _ hp (nib_lor0 _ _ (by norm_num) (mod16_shiftl7 _)))
  | xorAR r =>
      simp only [Inst.exec] at h
      cases hr : c.getRegisterValue r with
      | none =>
          rw [hr] at h
          simp only [Option.some.injEq] at h
          rw [← h]; exact hf
      | some v =>
          rw [hr] at h
          simp only [Option.some.injEq] at h
          rw [← h]
          exact mod16_shiftl7 _
  | orAR r =>
      simp only [Inst.exec] at h
      cases hr : c.getRegisterValue r with
      | none =>
          rw [hr] at h
          simp only [Option.some.injEq] at h
          rw [← h]; exact hf
      | some v =>
          rw [hr] at h
          simp only [Option.some.injEq] at h
          rw [← h]
          exact mod16_shiftl7 _
  | xorAN =>
      simp only [Inst.exec] at h
      exact bind_nib _ _ _ h (fun v hv hp => some_nib _ _ hp (mod16_shiftl7 _))
  | xorAHL =>
      simp only [Inst.exec] at h
      exact bind_nib _ _ _ h (fun v hv hp => some_nib _ _ hp (mod16_shiftl7 _))
  | orAN =>
      simp only [Inst.exec] at h
      exact bind_nib _ _ _ h (fun v hv hp => some_nib _ _ hp (mod16_shiftl7 _))
  | orAHL =>
      simp only [Inst.exec] at h
      exact bind_nib _ _ _ h (fun v hv hp => some_nib _ _ hp (mod16_shiftl7 _))
  | cpAR r =>
      simp only [Inst.exec] at h
      cases hr : c.getRegisterValue r with
      | none =>
          rw [hr] at h
          simp only [Option.some.injEq] at h
          rw [← h]; exact hf
      | some v =>
          rw [hr] at h
          simp only [Option.some.injEq] at h
          rw [← h]
          exact updateFlagsSub_nib _ _ _ hf
  | cpAN =>
      simp only [Inst.exec] at h
      exact bind_nib _ _ _ h (fun v hv hp => some_nib _ _ hp (updateFlagsSub_nib _ _ _ hf))
  | cpAHL =>
      simp only [Inst.exec] at h
      exact bind_nib _ _ _ h (fun v hv hp => some_nib _ _ hp (updateFlagsSub_nib _ _ _ hf))
  | incR r =>
      simp only [Inst.exec] at h
      cases hr : c.getRegisterValue r with
      | none =>
          rw [hr] at h
          simp only [Option.some.injEq] at h
          rw [← h]; exact hf
      | some v =>
          rw [hr] at h
          simp only [Option.some.injEq] at h
          rw [← h]
          refine nib_lor0 _ _ (nib_land _ _ (updateFlagsAdd_nib _ _ _ ?_)) ?_
          · rw [CPU.setRegister_f]; exact hf
          · rw [mod16_land]; simp
  | incHLInd =>
      simp only [Inst.exec] at h
      refine bind_nib _ _ _ h (fun v hv h1 => ?_)
      refine bind_nib _ _ _ h1 (fun cw hw hp => some_nib _ _ hp ?_)
      refine nib_lor0 _ _ (nib_land _ _ (updateFlagsAdd_nib _ _ _ ?_)) ?_
      · rw [CPU.write_f _ _ _ _ hw]; exact hf
      · rw [mod16_land]; simp
  | decR r =>
      simp only [Inst.exec] at h
      cases hr : c.getRegisterValue r with
      | none =>
          rw [hr] at h
          simp only [Option.some.injEq] at h
          rw [← h]; exact hf
      | some v =>
          rw [hr] at h
          simp only [Option.some.injEq] at h
          rw [← h]
          refine nib_lor0 _ _ (nib_land _ _ (updateFlagsSub_nib _ _ _ ?_)) ?_
          · rw [CPU.setRegister_f]; exact hf
          · rw [mod16_land]; simp
  | decHLInd =>
      simp only [Inst.exec] at h
      refine bind_nib _ _ _ h (fun v hv h1 => ?_)
      refine bind_nib _ _ _ h1 (fun cw hw hp => some_nib _ _ hp ?_)
      refine nib_lor0 _ _ (nib_land _ _ (updateFlagsSub_nib _ _ _ ?_)) ?_
      · rw [CPU.write_f _ _ _ _ hw]; exact hf
      · rw [mod16_land]; simp
  | addHLRR rr =>
      simp only [Inst.exec] at h
      cases hp : c.pairValue rr with
      | none =>
          rw [hp] at h
          simp only [Option.some.injEq] at h
          rw [← h]; exact hf
      | some hv =>
          rw [hp] at h
          simp only [Option.some.injEq] at h
          rw [← h]
          exact updateHcFlagsAddU16_nib _ _ _ (nib_land _ _ hf)
  | addHLSP =>
      simp only [Inst.exec] at h
      exact some_nib _ _ h (updateHcFlagsAddU16_nib _ _ _ (nib_land _ _ hf))
  | incRR rr =>
      simp only [Inst.exec] at h
      simp only [Inst.fSafe] at hs
      have hd := of_decide_eq_true hs
      cases hp : c.pairValue rr with
      | none =>
          rw [hp] at h
          simp only [Option.some.injEq] at h
          rw [← h]; exact hf
      | some hv =>
          rw [hp] at h
          simp only [Option.some.injEq] at h
          rw [← h]
          rw [CPU.setPair_f _ _ _ _ hd]; exact hf
  | decRR rr =>
      simp only [Inst.exec] at h
      simp only [Inst.fSafe] at hs
      have hd := of_decide_eq_true hs
      cases hp : c.pairValue rr with
      | none =>
          rw [hp] at h
          simp only [Option.some.injEq] at h
          rw [← h]; exact hf
      | some hv =>
          rw [hp] at h
          simp only [Option.some.injEq] at h
          rw [← h]
          rw [CPU.setPair_f _ _ _ _ hd]; exact hf
  | addSPDD =>
      simp only [Inst.exec] at h
      refine bind_nib _ _ _ h (fun r hr h1 => ?_)
      refine bind_nib _ _ _ h1 (fun arg ha hp => some_nib _ _ hp ?_)
      refine nib_land _ _ (updateFlagsAdd_nib _ _ _ ?_)
      rw [CPU.readOperand_f _ _ _ hr]; exact hf
  | ldHLSPDD =>
      simp only [Inst.exec] at h
      refine bind_nib _ _ _ h (fun r hr h1 => ?_)
      refine bind_nib _ _ _ h1 (fun arg ha hp => some_nib _ _ hp ?_)
      refine nib_land _ _ (updateFlagsAdd_nib _ _ _ ?_)
      rw [CPU.readOperand_f _ _ _ hr]; exact hf
  | rlca =>
      simp only [Inst.exec] at h
      exact bind_nib _ _ _ h (fun cm hm hp => some_nib _ _ hp (nib_land _ _ (CPU.rlc_nib _ _ _ hm hf)))
  | rla =>
      simp only [Inst.exec] at h
      exact bind_nib _ _ _ h (fun cm hm hp => some_nib _ _ hp (nib_land _ _ (CPU.rl_nib _ _ _ _ hm hf)))
  | rrca =>
      simp only [Inst.exec] at h
      exact bind_nib _ _ _ h (fun cm hm hp => some_nib _ _ hp (nib_land _ _ (CPU.rrc_nib _ _ _ hm hf)))
  | rra =>
      simp only [Inst.exec] at h
      exact bind_nib _ _ _ h (fun cm hm hp => some_nib _ _ hp (nib_land _ _ (CPU.rr_nib _ _ _ _ hm hf)))
  | cbDispatch =>
      simp only [Inst.exec] at h
      exact CPU.execCb_nib _ _ h hf
  | jpNN =>
      simp only [Inst.exec] at h
      refine bind_nib _ _ _ h (fun r hr h1 => ?_)
      refine bind_nib _ _ _ h1 (fun dst hd hp => some_nib _ _ hp ?_)
      show r.2.registerF % 16 = 0
      rw [CPU.readOperandU16_f _ _ _ hr]; exact hf
  | jpF cc =>
      simp only [Inst.exec] at h
      refine bind_nib _ _ _ h (fun r hr h1 => ?_)
      refine bind_nib _ _ _ h1 (fun dst hd hp => ?_)
      have hrf : r.2.registerF % 16 = 0 := by
        rw [CPU.readOperandU16_f _ _ _ hr]; exact hf
      by_cases ht : r.2.testConditionCode cc = true
      · rw [if_pos ht] at hp; exact some_nib _ _ hp hrf
      · rw [if_neg ht] at hp; exact some_nib _ _ hp hrf
  | jrE =>
      simp only [Inst.exec] at h
      rw [CPU.jr_f _ _ h]; exact hf
  | jrF cc =>
      simp only [Inst.exec] at h
      by_cases ht : c.testConditionCode cc = true
      · rw [if_pos ht] at h
        rw [CPU.jr_f _ _ h]; exact hf
      · rw [if_neg ht] at h
        exact some_nib _ _ h hf
  | callNN =>
      simp only [Inst.exec] at h
      refine bind_nib _ _ _ h (fun r hr h1 => ?_)
      refine bind_nib _ _ _ h1 (fun dst hd hc => ?_)
      rw [CPU.call_f _ _ _ hc, CPU.readOperandU16_f _ _ _ hr]; exact hf
  | callF cc =>
      simp only [Inst.exec] at h
      refine bind_nib _ _ _ h (fun r hr h1 => ?_)
      refine bind_nib _ _ _ h1 (fun dst hd hp => ?_)
      have hrf : r.2.registerF % 16 = 0 := by
        rw [CPU.readOperandU16_f _ _ _ hr]; exact hf
      by_cases ht : r.2.testConditionCode cc = true
      · rw [if_pos ht] at hp
        rw [CPU.call_f _ _ _ hp]; exact hrf
      · rw [if_neg ht] at hp; exact some_nib _ _ hp hrf
  | ret =>
      simp only [Inst.exec] at h
      exact bind_nib _ _ _ h (fun w hw hp => some_nib _ _ hp hf)
  | retF cc =>
      simp only [Inst.exec] at h
      by_cases ht : c.testConditionCode cc = true
      · rw [if_pos ht] at h
        exact bind_nib _ _ _ h (fun w hw hp => some_nib _ _ hp hf)
      · rw [if_neg ht] at h
        exact some_nib _ _ h hf
  | reti =>
      simp only [Inst.exec] at h
      exact bind_nib _ _ _ h (fun w hw hp => some_nib _ _ hp hf)
  | rst target =>
      simp only [Inst.exec] at h
      rw [CPU.call_f _ _ _ h]; exact hf

set_option maxRecDepth 16384 in
theorem decode_fSafe_lt : ∀ op < 256, (decode op).fSafe = true := by decide

set_option maxRecDepth 4096 in
theorem decode_fSafe (op : Nat) : (decode op).fSafe = true := by
  by_cases hop : op < 256
  · exact decode_fSafe_lt op hop
  · unfold decode
    rw [List.getD_eq_default _ _
      (by rw [show instTable.length = 256 from rfl]; omega)]
    rfl

theorem CPU.step_nib (c : CPU) (n : Nat) (c2 : CPU) (h : c.step = some (n, c2))
    (hf : c.registerF % 16 = 0) : c2.registerF % 16 = 0 := by
  unfold CPU.step at h
  by_cases hh : c.halted = true
  · rw [if_neg (by simp [hh])] at h
    simp only [Option.bind_eq_bind, Option.pure_def, Option.some_bind,
      Option.bind_eq_some, Option.some.injEq, Prod.mk.injEq] at h
    obtain ⟨s, hsi, h1, h2⟩ := h
    rw [← h2, CPU.handleInterrupts_f _ _ _ hsi]
    exact hf
  · rw [if_pos (by simp [hh])] at h
    simp only [Option.bind_eq_bind, Option.bind_eq_some] at h
    obtain ⟨opcode, hop, h⟩ := h
    obtain ⟨cx, hex, h⟩ := h
    have hcx : cx.registerF % 16 = 0 :=
      Inst.exec_nib (decode opcode) _ cx (decode_fSafe opcode) hex hf
    cases hcc : cx.changedCycles with
    | some k =>
        rw [hcc] at h
        simp only [Option.bind_eq_bind, Option.pure_def, Option.some_bind,
          Option.bind_eq_some, Option.some.injEq, Prod.mk.injEq] at h
        obtain ⟨s, hsi, h1, h2⟩ := h
        rw [← h2, CPU.handleInterrupts_f _ _ _ hsi]
        exact hcx
    | none =>
        rw [hcc] at h
        simp only [Option.bind_eq_bind, Option.pure_def, Option.some_bind,
          Option.bind_eq_some, Option.some.injEq, Prod.mk.injEq] at h
        obtain ⟨s, hsi, h1, h2⟩ := h
        rw [← h2, CPU.handleInterrupts_f _ _ _ hsi]
        exact hcx

theorem CPU.stepN_nib : ∀ (n : Nat) (c c2 : CPU), CPU.stepN n c = some c2 →
    c.registerF % 16 = 0 → c2.registerF % 16 = 0
  | 0, c, c2, h, hf => by
      simp only [CPU.stepN, Option.some.injEq] at h
      rw [← h]; exact hf
  | n + 1, c, c2, h, hf => by
      simp only [CPU.stepN, Option.bind_eq_bind, Option.bind_eq_some] at h
      obtain ⟨⟨n1, cm⟩, hr, h⟩ := h
      exact CPU.stepN_nib n cm c2 h (CPU.step_nib c n1 cm hr hf)

theorem popAF_spec (c c2 : CPU) (h : (Inst.popRR 3).exec c = some c2) :
    ∃ w, c.readU16 c.stackPointer = some w ∧
      c2.registerA = (w >>> 8) % 256 ∧ c2.registerF = (w % 256) &&& 0xF0 := by
  simp only [Inst.exec, CPU.pop, Option.bind_eq_bind, Option.bind_eq_some,
    Option.pure_def, Option.some.injEq, if_true] at h
  obtain ⟨cp, ⟨w, hw, hcp⟩, h2⟩ := h
  refine ⟨w, hw, ?_⟩
  rw [← h2, ← hcp]
  show ((CPU.writeOperandU16 c (.registerPair 3) w).registerA =
      (w >>> 8) % 256 ∧
    (CPU.writeOperandU16 c (.registerPair 3) w).registerF &&& 0xF0 =
      (w % 256) &&& 0xF0)
  simp only [CPU.writeOperandU16, CPU.setPair]
  norm_num [Nat.mod_mod_of_dvd]

/-- C5: (1) every opcode the instruction table can produce is flag-safe;
(2) executing any flag-safe table entry keeps the low nibble of F zero;
(3)-(4) hence a CPU step, and any sequence of steps, keeps the low nibble
of F zero; (5) opcode 0xF1 is POP AF and (6) POP AF sets A to the high
byte of the popped word and F to its low byte masked with 0xF0. -/
theorem claim5_f_low_nibble :
    (∀ op : Nat, (decode op).fSafe = true) ∧
    (∀ (i : Inst) (c c2 : CPU), i.fSafe = true → i.exec c = some c2 →
      c.registerF % 16 = 0 → c2.registerF % 16 = 0) ∧
    (∀ (c : CPU) (n : Nat) (c2 : CPU), c.step = some (n, c2) →
      c.registerF % 16 = 0 → c2.registerF % 16 = 0) ∧
    (∀ (n : Nat) (c c2 : CPU), CPU.stepN n c = some c2 →
      c.registerF % 16 = 0 → c2.registerF % 16 = 0) ∧
    (decode 0xF1 = Inst.popRR 3) ∧
    (∀ c c2 : CPU, (Inst.popRR 3).exec c = some c2 →
      ∃ w, c.readU16 c.stackPointer = some w ∧
        c2.registerA = (w >>> 8) % 256 ∧ c2.registerF = (w % 256) &&& 0xF0) :=
  ⟨decode_fSafe,
   fun i c c2 hs h hf => Inst.exec_nib i c c2 hs h hf,
   fun c n c2 h hf => CPU.step_nib c n c2 h hf,
   fun n c c2 h hf => CPU.stepN_nib n c c2 h hf,
   rfl,
   fun c c2 h => popAF_spec c c2 h⟩

/-- Witness for `claim5_f_low_nibble`: the NOP table entry on the concrete
post-boot register file, with every hypothesis discharged by evaluation. -/
theorem claim5_f_low_nibble_witness :
    Inst.nop.exec cpu0 = some cpu0 ∧ cpu0.registerF % 16 = 0 :=
  ⟨rfl, claim5_f_low_nibble.2.1 Inst.nop cpu0 cpu0 rfl rfl (by decide)⟩

end GBC

namespace GBC

/-! ## Claim C7 -/

set_option maxRecDepth 200000

/-- C7: the deferred timer-overflow actions observe the 4-dot grace.
(1)/(3): with fewer than 4 cycles left after the last increment, neither
the interrupt send nor the TMA reload fires — the armed flags and the
memory are returned unchanged.  (2)/(4): unarmed, they never fire.
(5)/(6): armed with at least 4 cycles left, the send sets IF bit 2 and the
reload copies TMA into TIMA, clearing the armed flag.  (7)/(8): the
concrete scenario — TAC=0x05, TIMA=0, IF=0; after 2000 dots IF&4 = 0,
after a further 4004 dots IF&4 = 4. -/
theorem claim7_timer_grace :
    (∀ (ir : Bool) (rem : Nat) (m : MemManager), rem < 4 →
      Timer.sendInterruptIfReady ir rem m = some (ir, m)) ∧
    (∀ (rem : Nat) (m : MemManager),
      Timer.sendInterruptIfReady false rem m = some (false, m)) ∧
    (∀ (str : Bool) (rem : Nat) (m : MemManager), rem < 4 →
      Timer.setToTmaIfReady str rem m = some (str, m)) ∧
    (∀ (rem : Nat) (m : MemManager),
      Timer.setToTmaIfReady false rem m = some (false, m)) ∧
    (∀ (rem : Nat) (m : MemManager) (f : Nat), 4 ≤ rem →
      m.read IF_ADDRESS = some f →
      Timer.sendInterruptIfReady true rem m =
        some (false, { m with memory := m.memory.put8 IF_ADDRESS (f ||| 4) }) ∧
      ({ m with memory := m.memory.put8 IF_ADDRESS (f ||| 4) } : MemManager).read
          IF_ADDRESS = some ((f ||| 4) % 256)) ∧
    (∀ (rem : Nat) (m : MemManager) (tma : Nat), 4 ≤ rem →
      m.read TMA_ADDRESS = some tma →
      Timer.setToTmaIfReady true rem m =
        some (false, { m with memory := m.memory.put8 TIMA_ADDRESS tma }) ∧
      ({ m with memory := m.memory.put8 TIMA_ADDRESS tma } : MemManager).read
          TIMA_ADDRESS = some (tma % 256)) ∧
    ((Timer.newTest MemManager.new).bind (fun r =>
      (r.2.write TAC_ADDRESS 0x05).bind (fun m =>
      (m.write TIMA_ADDRESS 0x00).bind (fun m =>
      (m.write IF_ADDRESS 0x00).bind (fun m =>
      (r.1.update m 2000).bind (fun r2 =>
      (r2.2.read IF_ADDRESS).map (fun v => v &&& 0x04)))))) = some 0) ∧
    ((Timer.newTest MemManager.new).bind (fun r =>
      (r.2.write TAC_ADDRESS 0x05).bind (fun m =>
      (m.write TIMA_ADDRESS 0x00).bind (fun m =>
      (m.write IF_ADDRESS 0x00).bind (fun m =>
      (r.1.update m 2000).bind (fun r2 =>
      (r2.1.update r2.2 4004).bind (fun r3 =>
      (r3.2.read IF_ADDRESS).map (fun v => v &&& 0x04))))))) = some 0x04) := by
  refine ⟨?_, ?_, ?_, ?_, ?_, ?_, ?_, ?_⟩
  · intro ir rem m h
    unfold Timer.sendInterruptIfReady
    rw [if_neg (by rintro ⟨-, h4⟩; omega)]
    rfl
  · intro rem m
    unfold Timer.sendInterruptIfReady
    rw [if_neg (by rintro ⟨hi, -⟩; simp at hi)]
    rfl
  · intro str rem m h
    unfold Timer.setToTmaIfReady
    rw [if_neg (by rintro ⟨-, h4⟩; omega)]
    rfl
  · intro rem m
    unfold Timer.setToTmaIfReady
    rw [if_neg (by rintro ⟨hi, -⟩; simp at hi)]
    rfl
  · intro rem m f h4 hf
    constructor
    · unfold Timer.sendInterruptIfReady
      rw [if_pos ⟨rfl, h4⟩]
      simp only [Option.bind_eq_bind, hf, Option.some_bind]
      rw [MemManager.write_plain_high _ _ _ (by norm_num [IF_ADDRESS])
        (by norm_num [IF_ADDRESS]) (by norm_num [IF_ADDRESS, OCPD_ADDRESS])
        (by norm_num [IF_ADDRESS, BCPD_ADDRESS])
        (by norm_num [IF_ADDRESS, DIV_ADDRESS])]
      rfl
    · rw [MemManager.read_plain_high _ _ (by norm_num [IF_ADDRESS])
        (by norm_num [IF_ADDRESS, OCPD_ADDRESS])
        (by norm_num [IF_ADDRESS, BCPD_ADDRESS])]
      show some ((m.memory.put8 IF_ADDRESS (f ||| 4)).get8 IF_ADDRESS) = _
      rw [Store.get8_put8_self]
  · intro rem m tma h4 hf
    constructor
    · unfold Timer.setToTmaIfReady
      rw [if_pos ⟨rfl, h4⟩]
      simp only [Option.bind_eq_bind, hf, Option.some_bind]
      rw [MemManager.write_plain_high _ _ _ (by norm_num [TIMA_ADDRESS])
        (by norm_num [TIMA_ADDRESS]) (by norm_num [TIMA_ADDRESS, OCPD_ADDRESS])
        (by norm_num [TIMA_ADDRESS, BCPD_ADDRESS])
        (by norm_num [TIMA_ADDRESS, DIV_ADDRESS])]
      rfl
    · rw [MemManager.read_plain_high _ _ (by norm_num [TIMA_ADDRESS])
        (by norm_num [TIMA_ADDRESS, OCPD_ADDRESS])
        (by norm_num [TIMA_ADDRESS, BCPD_ADDRESS])]
      show some ((m.memory.put8 TIMA_ADDRESS tma).get8 TIMA_ADDRESS) = _
      rw [Store.get8_put8_self]
  · decide
  · decide

/-- Witness for `claim7_timer_grace`: no interrupt fires 3 dots after an
armed overflow on a fresh memory. -/
theorem claim7_timer_grace_witness :
    (3:Nat) < 4 ∧ Timer.sendInterruptIfReady true 3 MemManager.new =
      some (true, MemManager.new) :=
  ⟨by decide, claim7_timer_grace.1 true 3 MemManager.new (by decide)⟩

set_option maxRecDepth 512

end GBC
